import Mathlib

/-!
Shallow embedding of the `monet` iterative SVG-drawing system, for checking
its natural-language specification against the code.

The embedding covers:
* `SvgCanvas` (`src/monet/canvas.py`): the layer store, with Python `dict`
  semantics modelled by ordered association lists;
* `parse_response` (`src/monet/response_parser.py`): the tag extractor,
  with the two regular expressions modelled by executable scanners;
* `run_drawing_session` (`src/monet/orchestrator.py`): the session driver,
  with the external renderer and provider modelled as oracles in an
  environment record, file persistence dropped (pure I/O boundary), and the
  session log modelled as the list of lines written.

Python strings are modelled as Lean `String` / `List Char`; `str.strip`,
`str.lower` and the regex character class `\s` are modelled over the ASCII
whitespace set Python uses for ASCII text.
-/

namespace Monet

/-! ## Python string primitives -/

/-- ASCII whitespace, as stripped by Python `str.strip()` and matched by
the regex class `\s` on ASCII text. -/
def isPySpace (c : Char) : Bool :=
  c = ' ' || c = '\t' || c = '\n' || c = Char.ofNat 13 || c = Char.ofNat 11 || c = Char.ofNat 12

/-- Python `str.strip()` on a list of characters. -/
def pyStrip (s : List Char) : List Char :=
  ((s.dropWhile isPySpace).reverse.dropWhile isPySpace).reverse

/-- Python `str.lower()` (ASCII). -/
def pyLower (s : List Char) : List Char :=
  s.map Char.toLower

/-- Python `str.strip()` on `String`. -/
def pyStripStr (s : String) : String :=
  String.mk (pyStrip s.data)

/-- Does `pat` occur as a substring of `s` starting at index `i`? -/
def occursAt (pat s : List Char) (i : Nat) : Bool :=
  pat.isPrefixOf (s.drop i)

/-- Split `s` at the first occurrence of `pat`: returns the part strictly
before the occurrence and the part strictly after it.  This models a
leftmost regex literal search. -/
def splitOnSub (pat : List Char) : List Char → Option (List Char × List Char)
  | [] => if pat.isEmpty then some ([], []) else none
  | c :: rest =>
    if pat.isPrefixOf (c :: rest) then some ([], (c :: rest).drop pat.length)
    else (splitOnSub pat rest).map (fun p => (c :: p.1, p.2))

/-! ## Response parser (`src/monet/response_parser.py`) -/

/-- Result record of `parse_response` (`ParsedResponse` dataclass). -/
structure ParsedResponse where
  notes : String := ""
  svg_elements : String := ""
  defs_elements : String := ""
  replace_layer_id : Option String := none
  replace_elements : Option String := none
  status : String := "continue"
  background : Option String := none
  deriving Repr, DecidableEq

/-- The opening literal `<tag>` of a simple tag. -/
def openTagLit (tag : String) : List Char := ("<" ++ tag ++ ">").data

/-- The closing literal `</tag>` of a simple tag. -/
def closeTagLit (tag : String) : List Char := ("</" ++ tag ++ ">").data

/-- Model of `_extract_tag`: the first non-greedy match of
`<tag>(.*?)</tag>` (DOTALL), with the captured group stripped; the empty
string when there is no match.  A leftmost non-greedy match exists exactly
when the closing literal occurs after the end of the first opening
literal, and then captures the text between the first opening literal and
the first closing literal after it. -/
def extractTag (text : List Char) (tag : String) : List Char :=
  match splitOnSub (openTagLit tag) text with
  | none => []
  | some (_, rest) =>
    match splitOnSub (closeTagLit tag) rest with
    | none => []
    | some (content, _) => pyStrip content

/-- Model of one attempt of the regex
`<replace-layer\s+id="([^"]+)">(.*?)</replace-layer>` anchored at the
start of `s`.  Greedy `\s+` and `[^"]+` need no backtracking here because
each is followed by a literal its character class excludes. -/
def openReplaceLit : List Char := "<replace-layer".data

def closeReplaceLit : List Char := "</replace-layer>".data

def idAttrLit : List Char := "id=\"".data

def matchReplaceAt (s : List Char) : Option (List Char × List Char) :=
  if openReplaceLit.isPrefixOf s then
    let rest := s.drop openReplaceLit.length
    let ws := rest.takeWhile isPySpace
    if ws.isEmpty then none
    else
      let rest2 := rest.drop ws.length
      if idAttrLit.isPrefixOf rest2 then
        let rest3 := rest2.drop idAttrLit.length
        let idChars := rest3.takeWhile (fun c => c ≠ '\"')
        if idChars.isEmpty then none
        else
          let rest4 := rest3.drop idChars.length
          if "\">".data.isPrefixOf rest4 then
            match splitOnSub closeReplaceLit (rest4.drop 2) with
            | some (content, _) => some (idChars, content)
            | none => none
          else none
      else none
  else none

/-- Leftmost search of the replace-layer regex: try every start position
from the left. -/
def findReplace : List Char → Option (List Char × List Char)
  | [] => none
  | s@(_ :: rest) =>
    match matchReplaceAt s with
    | some r => some r
    | none => findReplace rest

/-- The synonyms that normalize to status `done`. -/
def doneSynonyms : List (List Char) :=
  ["done".data, "complete".data, "finished".data]

/-- Model of `parse_response`. -/
def parse_response (text : String) : ParsedResponse :=
  let notes := extractTag text.data "notes"
  let svg_elements := extractTag text.data "svg-elements"
  let defs_elements := extractTag text.data "defs"
  let status_raw := extractTag text.data "status"
  let backgroundRaw := extractTag text.data "background"
  let background := if backgroundRaw.isEmpty then none else some (String.mk backgroundRaw)
  let status := if pyStrip (pyLower status_raw) ∈ doneSynonyms then "done" else "continue"
  let replaced := findReplace text.data
  { notes := String.mk notes
    svg_elements := String.mk svg_elements
    defs_elements := String.mk defs_elements
    replace_layer_id := replaced.map (fun p => String.mk p.1)
    replace_elements := replaced.map (fun p => String.mk (pyStrip p.2))
    status := status
    background := background }

/-! ## Layer store (`src/monet/canvas.py`)

Python `dict[str, str]` is modelled as an ordered association list with
Python `dict` semantics: insertion appends, update of an existing key
keeps its position, deletion removes the entry. -/

/-- Membership test of a key, `k in d`. -/
def dictContains (d : List (String × String)) (k : String) : Bool :=
  d.any (fun p => p.1 = k)

/-- Lookup, `d[k]` (as an `Option`). -/
def dictGet (d : List (String × String)) (k : String) : Option String :=
  (d.find? (fun p => p.1 = k)).map (fun p => p.2)

/-- Assignment `d[k] = v`: update in place if present, append otherwise. -/
def dictSet (d : List (String × String)) (k v : String) : List (String × String) :=
  if dictContains d k then d.map (fun p => if p.1 = k then (k, v) else p)
  else d ++ [(k, v)]

/-- Deletion `del d[k]` (total: a no-op when the key is absent; every call
site of the model deletes a present key). -/
def dictDel (d : List (String × String)) (k : String) : List (String × String) :=
  d.filter (fun p => p.1 ≠ k)

/-- The `SvgCanvas` dataclass with its field defaults. -/
structure SvgCanvas where
  width : Nat := 800
  height : Nat := 600
  background : String := "#FFFFFF"
  layers : List (String × String) := []
  defs : List (String × String) := []
  next_layer : Nat := 1
  deriving Repr, DecidableEq

/-- The errors canvas operations can raise: `KeyError` on a missing layer
id (the Python message interpolates the id, so the id is what the error
carries). -/
inductive CanvasError where
  | keyError (layer_id : String)
  deriving Repr, DecidableEq

/-- Model of `SvgCanvas.add_layer`: returns the new layer id together
with the mutated canvas. -/
def SvgCanvas.add_layer (c : SvgCanvas) (svg_elements : String)
    (defs : Option String := none) : String × SvgCanvas :=
  let layer_id := "layer-" ++ Nat.repr c.next_layer
  let c1 := { c with next_layer := c.next_layer + 1,
                     layers := dictSet c.layers layer_id (pyStripStr svg_elements) }
  let c2 :=
    match defs with
    | some d => if d ≠ "" && pyStripStr d ≠ "" then
        { c1 with defs := dictSet c1.defs layer_id (pyStripStr d) }
      else c1
    | none => c1
  (layer_id, c2)

/-- Model of `SvgCanvas.replace_layer`.  The first component is `some e`
when the Python code raises `e`; Python raises before any mutation, so
the canvas returned alongside an error is the input canvas. -/
def SvgCanvas.replace_layer (c : SvgCanvas) (layer_id svg_elements : String)
    (defs : Option String := none) : Option CanvasError × SvgCanvas :=
  if ¬ dictContains c.layers layer_id then
    (some (CanvasError.keyError layer_id), c)
  else
    let c1 := { c with layers := dictSet c.layers layer_id (pyStripStr svg_elements) }
    let c2 :=
      match defs with
      | some d =>
        if d ≠ "" && pyStripStr d ≠ "" then
          { c1 with defs := dictSet c1.defs layer_id (pyStripStr d) }
        else if dictContains c1.defs layer_id then
          { c1 with defs := dictDel c1.defs layer_id }
        else c1
      | none =>
        if dictContains c1.defs layer_id then
          { c1 with defs := dictDel c1.defs layer_id }
        else c1
    (none, c2)

/-- Python `str.splitlines()` restricted to the line terminators
`\n`, `\r`, `\r\n`. -/
def pySplitlines : List Char → List (List Char)
  | [] => []
  | '\r' :: '\n' :: rest => [] :: pySplitlines rest
  | '\r' :: rest => [] :: pySplitlines rest
  | '\n' :: rest => [] :: pySplitlines rest
  | c :: rest =>
    match pySplitlines rest with
    | [] => [[c]]
    | line :: more => (c :: line) :: more

/-- Model of `SvgCanvas.to_svg`. -/
def SvgCanvas.to_svg (c : SvgCanvas) : String :=
  let all_defs := String.intercalate "\n    " (c.defs.map (fun p => p.2))
  let defs_block :=
    if all_defs ≠ "" then "  <defs>\n    " ++ all_defs ++ "\n  </defs>\n" else ""
  let layers_block := String.join (c.layers.map (fun p =>
    let indented := String.intercalate "\n"
      ((pySplitlines p.2.data).map (fun line => "    " ++ String.mk line))
    "  <g id=\"" ++ p.1 ++ "\">\n" ++ indented ++ "\n  </g>\n"))
  "<svg xmlns=\"http://www.w3.org/2000/svg\" width=\"" ++ Nat.repr c.width ++
    "\" height=\"" ++ Nat.repr c.height ++ "\" viewBox=\"0 0 " ++ Nat.repr c.width ++
    " " ++ Nat.repr c.height ++ "\">\n" ++
    "  <rect width=\"100%\" height=\"100%\" fill=\"" ++ c.background ++ "\"/>\n" ++
    defs_block ++ layers_block ++ "</svg>"

/-- Count of the regex matches of `<(?!/)[a-zA-Z]`: occurrences of `<`
immediately followed by an ASCII letter. -/
def countSvgElements : List Char → Nat
  | [] => 0
  | '<' :: c :: rest => (if c.isAlpha then 1 else 0) + countSvgElements (c :: rest)
  | _ :: rest => countSvgElements rest

/-- Model of `SvgCanvas.get_layer_summary`. -/
def SvgCanvas.get_layer_summary (c : SvgCanvas) : String :=
  if c.layers.isEmpty then "No layers yet."
  else String.intercalate ", " (c.layers.map (fun p =>
    p.1 ++ ": ~" ++ Nat.repr (countSvgElements p.2.data) ++ " elements"))

/-! ## Provider contract (`src/monet/providers/base.py`) -/

/-- The `DrawingRequest` dataclass with its field defaults. -/
structure DrawingRequest where
  system_prompt : String
  canvas_png_base64 : String
  original_prompt : String
  iteration : Nat
  layer_summary : String
  notes_history : List String := []
  max_output_tokens : Nat := 4096
  iteration_message : Option String := none
  thinking_enabled : Bool := false
  thinking_budget : Nat := 4096
  deriving Repr, DecidableEq

/-- The `DrawingResponse` dataclass with its field defaults. -/
structure DrawingResponse where
  raw_text : String
  input_tokens : Nat := 0
  output_tokens : Nat := 0
  cache_read_tokens : Nat := 0
  cache_creation_tokens : Nat := 0
  thinking_tokens : Nat := 0
  model : String := ""
  provider_log : List String := []
  deriving Repr, DecidableEq

/-! ## Session driver (`src/monet/orchestrator.py`) -/

/-- The `DrawingSession` dataclass.  The provider object lives in the
environment record `Env` instead, and `output_dir` is the path as a
string. -/
structure DrawingSession where
  prompt : String
  canvas : SvgCanvas
  output_dir : String
  max_iterations : Nat := 25
  thinking_enabled : Bool := false
  thinking_budget : Nat
  iteration : Nat := 0
  notes_history : List String := []
  total_input_tokens : Nat := 0
  total_output_tokens : Nat := 0
  total_thinking_tokens : Nat := 0
  total_cache_read_tokens : Nat := 0
  total_cache_creation_tokens : Nat := 0
  deriving Repr, DecidableEq

/-- The dataclass constructor of `DrawingSession`: `iteration`,
`notes_history` and the five token totals are `init=False` fields and
always start at their defaults. -/
def mkDrawingSession (prompt : String) (canvas : SvgCanvas) (output_dir : String)
    (max_iterations : Nat) (thinking_enabled : Bool) (thinking_budget : Nat) :
    DrawingSession :=
  { prompt := prompt, canvas := canvas, output_dir := output_dir,
    max_iterations := max_iterations, thinking_enabled := thinking_enabled,
    thinking_budget := thinking_budget }

/-- External collaborators of the driver, modelled as oracles.

* `render` models `render_svg_to_png` / `render_svg_to_png_base64` at the
  default scale: the rasterizer is treated as a pure function from the
  SVG string to either an error message (a raised exception) or the PNG
  as a base64 string; base64-encoding bytes never fails, so one oracle
  serves both entry points.
* `renderScaled` models `render_svg_to_png` at `DEFAULT_EXPORT_SCALE`
  (used only for the best-effort final export).
* `send` models `provider.send_drawing_request`, indexed by how many
  provider calls were made before, so that a mocked provider can answer
  each turn differently; an error value is a raised provider exception.
* `buildSystemPrompt` models `prompt.build_system_prompt` and
  `planningInstruction` models `PLANNING_INSTRUCTION.format`; prompt
  wording is a non-goal of the spec, so the text is left abstract.
* `maxOutputTokens` — modelled from the spec: `DEFAULT_MAX_OUTPUT_TOKENS`
  lives in the `config` module, which is not under `src/`; the spec calls
  it the externally configured per-turn output-token budget. -/
structure Env where
  render : String → Except String String
  renderScaled : String → Except String String
  send : Nat → DrawingRequest → Except String DrawingResponse
  providerName : String
  defaultModel : String
  buildSystemPrompt : Nat → Nat → Nat → String
  planningInstruction : Nat → String
  maxOutputTokens : Nat

/-- Python truthiness of an optional string: `None` and `""` are falsy. -/
def optTruthy : Option String → Bool
  | none => false
  | some s => s ≠ ""

/-- The `'=' * 60` separator line. -/
def sixtyEquals : String := String.mk (List.replicate 60 '=')

/-- Lines written by `SessionLogger.log_session_start`. -/
def logSessionStart (providerName defaultModel : String) (session : DrawingSession) :
    List String :=
  ["Prompt: " ++ session.prompt,
   "Provider: " ++ providerName ++ " (model: " ++ defaultModel ++ ")",
   "Canvas: " ++ Nat.repr session.canvas.width ++ "x" ++ Nat.repr session.canvas.height ++
     ", bg=" ++ session.canvas.background,
   "Max iterations: " ++ Nat.repr session.max_iterations] ++
  (if session.thinking_enabled then
    ["Thinking: enabled (budget: " ++ Nat.repr session.thinking_budget ++ ")"] else []) ++
  [""]

/-- Lines written by `SessionLogger.log_iteration_start`. -/
def logIterationStart (iteration : Nat) : List String :=
  [sixtyEquals, "== Iteration " ++ Nat.repr iteration, sixtyEquals]

/-- Lines written by `SessionLogger.log_api_response`. -/
def logApiResponse (r : DrawingResponse) : List String :=
  r.provider_log.map (fun m => "[provider] " ++ m) ++
  ["Model: " ++ r.model,
   "Tokens: " ++ String.intercalate ", "
     (["in=" ++ Nat.repr r.input_tokens, "out=" ++ Nat.repr r.output_tokens] ++
      (if r.cache_read_tokens ≠ 0 then ["cache_read=" ++ Nat.repr r.cache_read_tokens] else []) ++
      (if r.cache_creation_tokens ≠ 0 then
        ["cache_create=" ++ Nat.repr r.cache_creation_tokens] else []) ++
      (if r.thinking_tokens ≠ 0 then ["thinking=" ++ Nat.repr r.thinking_tokens] else []))]

/-- Lines written by `SessionLogger.log_parsed_response`. -/
def logParsedResponse (parsed : ParsedResponse) : List String :=
  (if parsed.notes ≠ "" then ["\nArtist notes:\n" ++ parsed.notes ++ "\n"] else []) ++
  (if optTruthy parsed.background then
    ["Background changed to " ++ parsed.background.getD ""] else []) ++
  (if optTruthy parsed.replace_layer_id then
    ["Replace layer: " ++ parsed.replace_layer_id.getD ""] else []) ++
  (if parsed.svg_elements ≠ "" then
    ["New SVG: ~" ++ Nat.repr (countSvgElements parsed.svg_elements.data) ++ " elements" ++
      (if parsed.defs_elements ≠ "" && pyStripStr parsed.defs_elements ≠ "" then " + defs"
       else "")]
   else if !optTruthy parsed.replace_layer_id then ["WARNING: No SVG elements in response"]
   else []) ++
  ["Status: " ++ parsed.status]

/-- Lines written by `SessionLogger.log_session_end`. -/
def logSessionEnd (session : DrawingSession) : List String :=
  ["", sixtyEquals, "== Session complete", sixtyEquals,
   "Iterations: " ++ Nat.repr session.iteration,
   "Layers: " ++ session.canvas.get_layer_summary,
   "Total tokens: in=" ++ Nat.repr session.total_input_tokens ++
     ", out=" ++ Nat.repr session.total_output_tokens ++
     (if session.total_thinking_tokens ≠ 0 then
       ", thinking=" ++ Nat.repr session.total_thinking_tokens else "")] ++
  (if session.total_cache_read_tokens ≠ 0 then
    ["Total cache read tokens: " ++ Nat.repr session.total_cache_read_tokens] else []) ++
  (if session.total_cache_creation_tokens ≠ 0 then
    ["Total cache creation tokens: " ++ Nat.repr session.total_cache_creation_tokens] else []) ++
  ["Output: " ++ session.output_dir]

/-- Accumulation of the five usage counters of a response onto the
session totals. -/
def addTokens (s : DrawingSession) (r : DrawingResponse) : DrawingSession :=
  { s with
    total_input_tokens := s.total_input_tokens + r.input_tokens
    total_output_tokens := s.total_output_tokens + r.output_tokens
    total_thinking_tokens := s.total_thinking_tokens + r.thinking_tokens
    total_cache_read_tokens := s.total_cache_read_tokens + r.cache_read_tokens
    total_cache_creation_tokens := s.total_cache_creation_tokens + r.cache_creation_tokens }

/-- The request built for the planning turn (iteration 0): empty notes
history, the planning instruction as the iteration message, and thinking
always enabled. -/
def planRequest (env : Env) (session : DrawingSession) (system_prompt plan_b64 : String) :
    DrawingRequest :=
  { system_prompt := system_prompt
    canvas_png_base64 := plan_b64
    original_prompt := session.prompt
    iteration := 0
    layer_summary := session.canvas.get_layer_summary
    notes_history := []
    max_output_tokens := env.maxOutputTokens
    iteration_message := some (env.planningInstruction session.max_iterations)
    thinking_enabled := true
    thinking_budget := session.thinking_budget }

/-- The request built for a normal drawing iteration. -/
def iterRequest (env : Env) (session : DrawingSession) (system_prompt canvas_b64 : String) :
    DrawingRequest :=
  { system_prompt := system_prompt
    canvas_png_base64 := canvas_b64
    original_prompt := session.prompt
    iteration := session.iteration
    layer_summary := session.canvas.get_layer_summary
    notes_history := session.notes_history
    max_output_tokens := env.maxOutputTokens
    iteration_message := none
    thinking_enabled := session.thinking_enabled
    thinking_budget := session.thinking_budget }

/-- The planning phase (iteration 0) of `run_drawing_session`, source
lines 147-192.  Returns the session, the log, the list of responses
received (zero or one) and the number of provider calls made.  The
enclosing `try` catches any exception: a failed preview render or a
failed provider call both fall through to the warning, leaving the
session untouched. -/
def planningPhase (env : Env) (session : DrawingSession) (system_prompt : String)
    (log : List String) : DrawingSession × List String × List DrawingResponse × Nat :=
  let log := log ++ logIterationStart 0 ++
    ["Planning phase — thinking through artistic approach..."]
  match env.render session.canvas.to_svg with
  | Except.error e =>
    (session, log ++ ["WARNING: Planning phase failed (" ++ e ++ "), continuing without plan."],
     [], 0)
  | Except.ok plan_b64 =>
    match env.send 0 (planRequest env session system_prompt plan_b64) with
    | Except.error e =>
      (session, log ++ ["WARNING: Planning phase failed (" ++ e ++ "), continuing without plan."],
       [], 1)
    | Except.ok plan_response =>
      let session := addTokens session plan_response
      let log := log ++ logApiResponse plan_response
      let parsed := parse_response plan_response.raw_text
      let session :=
        if parsed.notes ≠ "" then
          { session with notes_history :=
              session.notes_history ++ ["[Artistic Plan]\n" ++ parsed.notes] }
        else session
      let log := log ++ logParsedResponse parsed
      let log := log ++ (if parsed.svg_elements ≠ "" then
        ["WARNING: Planning phase produced SVG elements — ignoring them."] else [])
      let log := log ++ (if parsed.defs_elements ≠ "" then
        ["WARNING: Planning phase produced defs — ignoring them."] else [])
      let log := log ++ (if optTruthy parsed.background then
        ["WARNING: Planning phase changed background — ignoring it."] else [])
      (session, log, [plan_response], 1)

/-- Why the iteration loop stopped. -/
inductive StopReason where
  | renderError
  | apiError
  | emptyStreak
  | artistDone
  | maxIterations
  deriving Repr, DecidableEq

/-- The mutable state threaded through the iteration loop: the session,
the log lines written so far, the `empty_streak` counter, the number of
provider calls made, and the trace of responses received (in the order
they were logged by `log_api_response`). -/
structure LoopState where
  sess : DrawingSession
  log : List String
  empty_streak : Nat
  calls : Nat
  responses : List DrawingResponse
  deriving Repr

/-- Source lines 241-243: the background directive overwrites the canvas
background unconditionally when present (truthy). -/
def applyBackground (parsed : ParsedResponse) (s : DrawingSession) : DrawingSession :=
  match parsed.background with
  | some b => if b ≠ "" then { s with canvas := { s.canvas with background := b } } else s
  | none => s

/-- Source lines 245-251: the layer replacement attempt, whose `KeyError`
is caught and logged as a warning. -/
def applyReplace (parsed : ParsedResponse) (s : DrawingSession) (log : List String) :
    DrawingSession × List String :=
  if optTruthy parsed.replace_layer_id && optTruthy parsed.replace_elements then
    let rid := parsed.replace_layer_id.getD ""
    match s.canvas.replace_layer rid (parsed.replace_elements.getD "") none with
    | (some _, c) =>
      ({ s with canvas := c }, log ++ ["WARNING: Cannot replace " ++ rid ++ ": not found"])
    | (none, c) => ({ s with canvas := c }, log ++ ["Replaced " ++ rid])
  else (s, log)

/-- Source lines 241-251: background directive then layer replacement. -/
def applyBackgroundAndReplace (parsed : ParsedResponse) (s : DrawingSession)
    (log : List String) : DrawingSession × List String :=
  applyReplace parsed (applyBackground parsed s) log

/-- Source lines 253-273: append the new markup as a layer if present,
speculatively re-render the full canvas, roll the layer back on a render
failure, and produce the updated `empty_streak` value. -/
def applyNewMarkup (env : Env) (parsed : ParsedResponse) (s : DrawingSession)
    (log : List String) (empty_streak : Nat) : DrawingSession × List String × Nat :=
  if parsed.svg_elements ≠ "" then
    let defsArg := if parsed.defs_elements ≠ "" then some parsed.defs_elements else none
    let added := s.canvas.add_layer parsed.svg_elements defsArg
    let layer_id := added.1
    let s := { s with canvas := added.2 }
    let log := log ++ ["Added " ++ layer_id]
    match env.render s.canvas.to_svg with
    | Except.error e =>
      let c3 := { s.canvas with
        layers := dictDel s.canvas.layers layer_id,
        defs := if dictContains s.canvas.defs layer_id then
            dictDel s.canvas.defs layer_id
          else s.canvas.defs }
      ({ s with canvas := c3 },
       log ++ ["WARNING: " ++ layer_id ++ " caused render error, removing: " ++ e],
       empty_streak + 1)
    | Except.ok _ => (s, log, 0)
  else if !optTruthy parsed.replace_layer_id then (s, log, empty_streak + 1)
  else (s, log, 0)

/-- Source lines 275-292: the empty-streak termination check, the
intermediate persistence (whose raster attempt can log a warning), and
the `done` check. -/
def iterFinish (env : Env) (st : LoopState) (parsed : ParsedResponse)
    (s : DrawingSession) (log : List String) (streak : Nat) :
    LoopState × Option StopReason :=
  if streak ≥ 3 then
    ({ st with
        sess := s
        empty_streak := streak
        log := log ++ ["STOPPING: 3 consecutive iterations with no new content."] },
     some StopReason.emptyStreak)
  else
    let log :=
      match env.render s.canvas.to_svg with
      | Except.error e => log ++ ["WARNING: Could not save intermediate PNG: " ++ e]
      | Except.ok _ => log
    if parsed.status = "done" then
      ({ st with
          sess := s
          empty_streak := streak
          log := log ++ ["Artist signaled done."] }, some StopReason.artistDone)
    else
      ({ st with sess := s, empty_streak := streak, log := log }, none)

/-- The part of one loop iteration that follows a successful provider
call, source lines 225-292: token accounting, parsing, the directive
applications with validation-and-rollback, the `empty_streak` update and
the termination checks.  The returned reason is `some r` when the Python
code hits `break`. -/
def iterApply (env : Env) (st : LoopState) (response : DrawingResponse) :
    LoopState × Option StopReason :=
  let s := addTokens st.sess response
  let log := st.log ++ logApiResponse response
  let parsed := parse_response response.raw_text
  let s :=
    if parsed.notes ≠ "" then
      { s with notes_history := s.notes_history ++ [parsed.notes] }
    else s
  let log := log ++ logParsedResponse parsed
  let repl := applyBackgroundAndReplace parsed s log
  let applied := applyNewMarkup env parsed repl.1 repl.2 st.empty_streak
  iterFinish env st parsed applied.1 applied.2.1 applied.2.2

/-- One full pass of the iteration loop body, source lines 194-292:
increment the iteration counter, render the preview, send the request,
then `iterApply`. -/
def iterBody (env : Env) (system_prompt : String) (st : LoopState) :
    LoopState × Option StopReason :=
  let s := { st.sess with iteration := st.sess.iteration + 1 }
  let log := st.log ++ logIterationStart s.iteration
  match env.render s.canvas.to_svg with
  | Except.error e =>
    ({ st with sess := s, log := log ++ ["ERROR: Failed to render canvas: " ++ e] },
     some StopReason.renderError)
  | Except.ok canvas_b64 =>
    match env.send st.calls (iterRequest env s system_prompt canvas_b64) with
    | Except.error e =>
      ({ st with
          sess := s
          calls := st.calls + 1
          log := log ++ ["ERROR: API call failed: " ++ e] }, some StopReason.apiError)
    | Except.ok response =>
      iterApply env
        { st with
            sess := s
            log := log
            calls := st.calls + 1
            responses := st.responses ++ [response] } response

/-- The `while session.iteration < session.max_iterations` loop, written
with explicit fuel; each pass increases `iteration` by exactly one, so
fuel `max_iterations` (as supplied by `run_drawing_session`) is enough to
reach the loop condition.  The second component is `some r` when the loop
ended with `break`, and `none` when the condition fell through to the
`while ... else` clause. -/
def runLoop (env : Env) (system_prompt : String) (max_iterations : Nat) :
    Nat → LoopState → LoopState × Option StopReason
  | 0, st => (st, none)
  | fuel + 1, st =>
    if st.sess.iteration < max_iterations then
      match iterBody env system_prompt st with
      | (st2, some r) => (st2, some r)
      | (st2, none) => runLoop env system_prompt max_iterations fuel st2
    else (st, none)

/-- The observable outcome of `run_drawing_session`: the final session
state, the full session log, the reason the loop ended, the returned
final SVG path, the trace of provider responses received and the number
of provider calls made. -/
structure RunResult where
  session : DrawingSession
  log : List String
  stop : StopReason
  final_svg_path : String
  responses : List DrawingResponse
  calls : Nat
  deriving Repr

/-- Model of `run_drawing_session`.  File persistence (`save_svg`,
`save_png`, log-file writes, directory creation) is outside the model;
the raster attempts that can fail and produce log lines go through the
render oracles. -/
def run_drawing_session (env : Env) (session : DrawingSession) : RunResult :=
  let log := logSessionStart env.providerName env.defaultModel session
  let system_prompt :=
    env.buildSystemPrompt session.canvas.width session.canvas.height session.max_iterations
  let planned := planningPhase env session system_prompt log
  let st0 : LoopState :=
    { sess := planned.1, log := planned.2.1, empty_streak := 0,
      calls := planned.2.2.2, responses := planned.2.2.1 }
  let looped := runLoop env system_prompt session.max_iterations session.max_iterations st0
  let st := looped.1
  let log :=
    match looped.2 with
    | none => st.log ++ ["Reached max iterations (" ++ Nat.repr st.sess.max_iterations ++ ")."]
    | some _ => st.log
  let log :=
    match env.renderScaled st.sess.canvas.to_svg with
    | Except.error e => log ++ ["WARNING: Could not save final PNG: " ++ e]
    | Except.ok _ => log
  let log := log ++ logSessionEnd st.sess
  { session := st.sess
    log := log
    stop := match looped.2 with | some r => r | none => StopReason.maxIterations
    final_svg_path := st.sess.output_dir ++ "/final.svg"
    responses := st.responses
    calls := st.calls }

/-! ## Auxiliary definitions for the claims -/

/-- The canvas mutations the driver performs on the layer store: ordinary
`add_layer` appends, and the rollback reaction to a failed validation
render (orchestrator lines 264-266: `del session.canvas.layers[layer_id]`
followed by a guarded `del session.canvas.defs[layer_id]`). -/
inductive CanvasOp where
  | add (svg_elements : String) (defs : Option String)
  | rollback (layer_id : String)

/-- Apply one canvas operation; the second component lists the layer ids
returned by `add_layer` (empty for a rollback). -/
def applyOp (c : SvgCanvas) : CanvasOp → SvgCanvas × List String
  | CanvasOp.add svg d =>
    let r := c.add_layer svg d
    (r.2, [r.1])
  | CanvasOp.rollback lid =>
    ({ c with
        layers := dictDel c.layers lid
        defs := if dictContains c.defs lid then dictDel c.defs lid else c.defs }, [])

/-- Apply a sequence of canvas operations, collecting the ids returned by
the `add_layer` calls in order. -/
def applyOps (c : SvgCanvas) : List CanvasOp → SvgCanvas × List String
  | [] => (c, [])
  | op :: rest =>
    let r := applyOp c op
    let r2 := applyOps r.1 rest
    (r2.1, r.2 ++ r2.2)

/-- Number of `add` operations in a sequence. -/
def countAdds : List CanvasOp → Nat
  | [] => 0
  | CanvasOp.add _ _ :: rest => countAdds rest + 1
  | CanvasOp.rollback _ :: rest => countAdds rest

/-- The claim-side reading of `the text contains a replace-layer block
with id X`, following the words of the spec sentence: the text literally
contains an opening tag carrying id `X`, some content, and the closing
tag, somewhere. -/
def ContainsReplaceBlock (text X : String) : Prop :=
  ∃ pre c post : String,
    text = pre ++ "<replace-layer id=\"" ++ X ++ "\">" ++ c ++ "</replace-layer>" ++ post

/-- A text containing a replace-layer block with id `B` (the second
block), while an earlier block has id `A` and whitespace-only content
follows the `B` opening tag. -/
def c7text : String :=
  "<replace-layer id=\"A\">x</replace-layer><replace-layer id=\"B\"> </replace-layer>"

/-- What it means for a text to contain a replace-layer block whose
opening tag has no id attribute: the opening literal is followed
directly by `>`. -/
def ContainsIdlessBlock (text : String) : Prop :=
  ∃ pre c post : String,
    text = pre ++ "<replace-layer>" ++ c ++ "</replace-layer>" ++ post

/-- A text containing an id-less replace-layer block followed by a
block that does carry an id. -/
def c10text : String :=
  "<replace-layer>x</replace-layer><replace-layer id=\"Y\">z</replace-layer>"

/-- A concrete environment used to instantiate claims about the driver:
every render succeeds and the provider always answers with an empty
response text. -/
def envW : Env :=
  { render := fun _ => Except.ok ""
    renderScaled := fun _ => Except.ok ""
    send := fun _ _ => Except.ok { raw_text := "" }
    providerName := "mock"
    defaultModel := "mock-1"
    buildSystemPrompt := fun _ _ _ => "SYS"
    planningInstruction := fun _ => "PLAN"
    maxOutputTokens := 4096 }

/-- A concrete loop state used to instantiate claims about the driver. -/
def stW : LoopState :=
  { sess := mkDrawingSession "a cat" {} "out" 3 false 1024
    log := []
    empty_streak := 0
    calls := 0
    responses := [] }

/-- A concrete response carrying only a replace directive. -/
def respReplaceW : DrawingResponse :=
  { raw_text := "<replace-layer id=\"layer-9\">x</replace-layer>" }

/-- A concrete planning response carrying markup, defs and background
directives, all of which the planning phase must discard. -/
def respPlanW : DrawingResponse :=
  { raw_text := "<svg-elements><rect/></svg-elements><defs><g/></defs><background>#000</background>" }

/-- The always-succeeding environment whose provider answers every call
with `respPlanW`. -/
def envC2W : Env :=
  { envW with send := fun _ _ => Except.ok respPlanW }

/-- Value of a decimal digit character. -/
def digitVal (c : Char) : Nat := c.toNat - 48

/-- Decimal value of a digit string (used to decode `Nat.repr`). -/
def valOfDigits (l : List Char) : Nat :=
  l.foldl (fun a c => a * 10 + digitVal c) 0

/-- The token-accounting invariant of the loop state: each cumulative
counter equals the sum of the corresponding per-response counters over
the trace of responses received so far. -/
def TokensInv (st : LoopState) : Prop :=
  st.sess.total_input_tokens = (st.responses.map (fun r => r.input_tokens)).sum
  ∧ st.sess.total_output_tokens = (st.responses.map (fun r => r.output_tokens)).sum
  ∧ st.sess.total_thinking_tokens = (st.responses.map (fun r => r.thinking_tokens)).sum
  ∧ st.sess.total_cache_read_tokens = (st.responses.map (fun r => r.cache_read_tokens)).sum
  ∧ st.sess.total_cache_creation_tokens
      = (st.responses.map (fun r => r.cache_creation_tokens)).sum

/-! ## Lemmas about the substring scanner -/

theorem isPrefixOf_iff_exists (p : List Char) : ∀ s : List Char,
    p.isPrefixOf s = true ↔ ∃ t, s = p ++ t := by
  induction p with
  | nil =>
    intro s
    simp [List.isPrefixOf]
  | cons a as ih =>
    intro s
    cases s with
    | nil =>
      simp [List.isPrefixOf]
    | cons b bs =>
      simp only [List.isPrefixOf, Bool.and_eq_true, beq_iff_eq, ih bs, List.cons_append,
        List.cons.injEq]
      constructor
      · rintro ⟨rfl, t, rfl⟩
        exact ⟨t, rfl, rfl⟩
      · rintro ⟨t, rfl, rfl⟩
        exact ⟨rfl, t, rfl⟩

theorem isPrefixOf_append (p t : List Char) : p.isPrefixOf (p ++ t) = true :=
  (isPrefixOf_iff_exists p (p ++ t)).mpr ⟨t, rfl⟩

theorem occursAt_succ (pat : List Char) (c : Char) (s : List Char) (i : Nat) :
    occursAt pat (c :: s) (i + 1) = occursAt pat s i := rfl

theorem occursAt_false_of_ge (pat s : List Char) (i : Nat) (hp : pat ≠ [])
    (h : s.length ≤ i) : occursAt pat s i = false := by
  unfold occursAt
  rw [List.drop_eq_nil_of_le h]
  cases pat with
  | nil => exact absurd rfl hp
  | cons a as => rfl

theorem splitOnSub_eq_some (pat : List Char) : ∀ s pre post : List Char,
    splitOnSub pat s = some (pre, post) → s = pre ++ pat ++ post := by
  intro s
  induction s with
  | nil =>
    intro pre post h
    unfold splitOnSub at h
    by_cases hp : pat.isEmpty
    · simp only [hp, if_true, Option.some.injEq, Prod.mk.injEq] at h
      obtain ⟨rfl, rfl⟩ := h
      simp [List.isEmpty_iff.mp hp]
    · simp [hp] at h
  | cons c rest ih =>
    intro pre post h
    unfold splitOnSub at h
    by_cases hp : pat.isPrefixOf (c :: rest) = true
    · simp only [hp, if_true, Option.some.injEq, Prod.mk.injEq] at h
      obtain ⟨rfl, rfl⟩ := h
      obtain ⟨t, ht⟩ := (isPrefixOf_iff_exists pat (c :: rest)).mp hp
      rw [ht, List.nil_append, List.drop_left]
    · rw [if_neg hp] at h
      cases hsplit : splitOnSub pat rest with
      | none => simp [hsplit] at h
      | some pr =>
        obtain ⟨pre2, post2⟩ := pr
        simp only [hsplit, Option.map_some', Option.some.injEq, Prod.mk.injEq] at h
        obtain ⟨rfl, rfl⟩ := h
        have := ih pre2 post2 hsplit
        simp [this]

theorem splitOnSub_min (pat : List Char) : ∀ s pre post : List Char,
    splitOnSub pat s = some (pre, post) → ∀ i, i < pre.length → occursAt pat s i = false := by
  intro s
  induction s with
  | nil =>
    intro pre post h i hi
    unfold splitOnSub at h
    by_cases hp : pat.isEmpty
    · simp only [hp, if_true, Option.some.injEq, Prod.mk.injEq] at h
      obtain ⟨rfl, rfl⟩ := h
      simp at hi
    · simp [hp] at h
  | cons c rest ih =>
    intro pre post h i hi
    unfold splitOnSub at h
    by_cases hp : pat.isPrefixOf (c :: rest) = true
    · simp only [hp, if_true, Option.some.injEq, Prod.mk.injEq] at h
      obtain ⟨rfl, rfl⟩ := h
      simp at hi
    · rw [if_neg hp] at h
      cases hsplit : splitOnSub pat rest with
      | none => simp [hsplit] at h
      | some pr =>
        obtain ⟨pre2, post2⟩ := pr
        simp only [hsplit, Option.map_some', Option.some.injEq, Prod.mk.injEq] at h
        obtain ⟨rfl, rfl⟩ := h
        cases i with
        | zero =>
          unfold occursAt
          simpa using Bool.eq_false_iff.mpr hp
        | succ j =>
          rw [occursAt_succ]
          exact ih pre2 post2 hsplit j (by simpa using hi)

theorem splitOnSub_of_first (pat : List Char) : ∀ pre post : List Char,
    (∀ i, i < pre.length → occursAt pat (pre ++ pat ++ post) i = false) →
    splitOnSub pat (pre ++ pat ++ post) = some (pre, post) := by
  intro pre
  induction pre with
  | nil =>
    intro post _
    rw [List.nil_append]
    cases hpp : pat ++ post with
    | nil =>
      have hpat : pat = [] := by
        cases pat with
        | nil => rfl
        | cons a as => simp at hpp
      subst hpat
      simp only [List.nil_append] at hpp
      subst hpp
      rfl
    | cons c rest =>
      unfold splitOnSub
      rw [← hpp, isPrefixOf_append, if_pos rfl, List.drop_left]
  | cons a pre ih =>
    intro post hmin
    have h0 : occursAt pat ((a :: pre) ++ pat ++ post) 0 = false := by
      exact hmin 0 (by simp)
    unfold occursAt at h0
    simp only [List.drop_zero] at h0
    unfold splitOnSub
    simp only [List.cons_append] at h0 ⊢
    rw [h0]
    simp only [Bool.false_eq_true, if_false]
    rw [ih post (fun i hi => by
      have := hmin (i + 1) (by simpa using Nat.succ_lt_succ hi)
      rwa [List.cons_append, List.cons_append, occursAt_succ] at this)]
    rfl

theorem splitOnSub_eq_none (pat : List Char) (hpat : pat ≠ []) : ∀ s : List Char,
    (∀ i, occursAt pat s i = false) → splitOnSub pat s = none := by
  intro s
  induction s with
  | nil =>
    intro _
    unfold splitOnSub
    rw [if_neg (by simpa [List.isEmpty_iff] using hpat)]
  | cons c rest ih =>
    intro h
    unfold splitOnSub
    have h0 := h 0
    unfold occursAt at h0
    simp only [List.drop_zero] at h0
    rw [h0]
    simp only [Bool.false_eq_true, if_false]
    rw [ih (fun i => by
      have := h (i + 1)
      rwa [occursAt_succ] at this)]
    rfl

/-! ## Lemmas about `pyStrip` and `pyLower` -/

theorem isPySpace_toLower (c : Char) : isPySpace (Char.toLower c) = isPySpace c := by
  unfold Char.toLower
  by_cases h : c.toNat ≥ 65 ∧ c.toNat ≤ 90
  · rw [if_pos h]
    obtain ⟨h1, h2⟩ := h
    have hc : isPySpace c = false := by
      unfold isPySpace
      simp only [Bool.or_eq_false_iff, decide_eq_false_iff_not]
      refine ⟨⟨⟨⟨⟨?_, ?_⟩, ?_⟩, ?_⟩, ?_⟩, ?_⟩ <;> rintro rfl <;> exact absurd h1 (by decide)
    rw [hc]
    generalize c.toNat = n at h1 h2
    interval_cases n <;> decide
  · rw [if_neg h]

theorem dropWhile_dropWhile (p : Char → Bool) (l : List Char) :
    (l.dropWhile p).dropWhile p = l.dropWhile p := by
  induction l with
  | nil => rfl
  | cons c rest ih =>
    rw [List.dropWhile_cons]
    by_cases hc : p c = true
    · rw [if_pos hc]
      exact ih
    · rw [if_neg hc, List.dropWhile_cons, if_neg hc]

theorem dropWhile_map_toLower (l : List Char) :
    (l.map Char.toLower).dropWhile isPySpace = (l.dropWhile isPySpace).map Char.toLower := by
  induction l with
  | nil => rfl
  | cons c rest ih =>
    simp only [List.map_cons, List.dropWhile_cons, isPySpace_toLower]
    by_cases hc : isPySpace c = true
    · rw [if_pos hc, if_pos hc]
      exact ih
    · rw [if_neg hc, if_neg hc, List.map_cons]

theorem length_dropWhile_le (p : Char → Bool) (l : List Char) :
    (l.dropWhile p).length ≤ l.length := by
  induction l with
  | nil => exact Nat.le_refl _
  | cons c rest ih =>
    rw [List.dropWhile_cons]
    by_cases hc : p c = true
    · rw [if_pos hc]
      exact Nat.le_trans ih (Nat.le_succ _)
    · rw [if_neg hc]

theorem false_of_dropWhile_cons (p : Char → Bool) (a : Char) (tl : List Char)
    (h : (a :: tl).dropWhile p = a :: tl) : p a = false := by
  by_cases ha : p a = true
  · rw [List.dropWhile_cons, if_pos ha] at h
    have hlen := congrArg List.length h
    have hle := length_dropWhile_le p tl
    simp only [List.length_cons] at hlen
    omega
  · exact Bool.eq_false_iff.mpr ha

theorem pyStrip_front (s : List Char) : (pyStrip s).dropWhile isPySpace = pyStrip s := by
  have key : ∀ t : List Char, t.dropWhile isPySpace = t →
      ((t.reverse.dropWhile isPySpace).reverse).dropWhile isPySpace
        = (t.reverse.dropWhile isPySpace).reverse := by
    intro t hts
    have hdecomp : t = (t.reverse.dropWhile isPySpace).reverse
        ++ (t.reverse.takeWhile isPySpace).reverse := by
      conv_lhs => rw [← List.reverse_reverse t,
        ← List.takeWhile_append_dropWhile (p := isPySpace) (l := t.reverse)]
      rw [List.reverse_append]
    cases hru : (t.reverse.dropWhile isPySpace).reverse with
    | nil => rfl
    | cons a rest =>
      rw [hru, List.cons_append] at hdecomp
      rw [hdecomp] at hts
      have hpa := false_of_dropWhile_cons isPySpace a _ hts
      rw [List.dropWhile_cons, if_neg (by simp [hpa])]
  unfold pyStrip
  exact key (s.dropWhile isPySpace) (dropWhile_dropWhile isPySpace s)

theorem pyStrip_idem (s : List Char) : pyStrip (pyStrip s) = pyStrip s := by
  have h1 : pyStrip (pyStrip s)
      = ((pyStrip s).reverse.dropWhile isPySpace).reverse := by
    show (((pyStrip s).dropWhile isPySpace).reverse.dropWhile isPySpace).reverse = _
    rw [pyStrip_front]
  rw [h1]
  show ((((s.dropWhile isPySpace).reverse.dropWhile isPySpace).reverse).reverse.dropWhile
    isPySpace).reverse = _
  rw [List.reverse_reverse, dropWhile_dropWhile]
  rfl

theorem pyLower_pyStrip (s : List Char) : pyLower (pyStrip s) = pyStrip (pyLower s) := by
  unfold pyLower pyStrip
  rw [dropWhile_map_toLower s]
  rw [show ((s.dropWhile isPySpace).map Char.toLower).reverse
      = (s.dropWhile isPySpace).reverse.map Char.toLower by simp]
  rw [dropWhile_map_toLower]
  simp

theorem strip_lower_strip (s : List Char) :
    pyStrip (pyLower (pyStrip s)) = pyStrip (pyLower s) := by
  rw [pyLower_pyStrip, pyStrip_idem]

/-! ## Characterization of `extractTag` -/

theorem openTagLit_ne_nil (tag : String) : openTagLit tag ≠ [] := by
  unfold openTagLit
  intro h
  have := congrArg List.length h
  simp [String.data_append] at this

theorem closeTagLit_ne_nil (tag : String) : closeTagLit tag ≠ [] := by
  unfold closeTagLit
  intro h
  have := congrArg List.length h
  simp [String.data_append] at this

theorem extractTag_of_decomp (tag : String) (s pre c post : List Char)
    (hs : s = pre ++ openTagLit tag ++ c ++ closeTagLit tag ++ post)
    (hpre : ∀ i, i < pre.length → occursAt (openTagLit tag) s i = false)
    (hc : ∀ j, j < c.length →
      occursAt (closeTagLit tag) (c ++ closeTagLit tag ++ post) j = false) :
    extractTag s tag = pyStrip c := by
  have hassoc : s = (pre ++ openTagLit tag) ++ (c ++ closeTagLit tag ++ post) := by
    rw [hs]
    simp [List.append_assoc]
  have h1 : splitOnSub (openTagLit tag) s = some (pre, c ++ closeTagLit tag ++ post) := by
    rw [hassoc]
    exact splitOnSub_of_first _ pre _ (fun i hi => by
      rw [← hassoc]
      exact hpre i hi)
  have h2 : splitOnSub (closeTagLit tag) (c ++ closeTagLit tag ++ post) = some (c, post) :=
    splitOnSub_of_first _ c post hc
  simp only [extractTag, h1, h2]

theorem extractTag_no_open (tag : String) (s : List Char)
    (h : ∀ i, occursAt (openTagLit tag) s i = false) : extractTag s tag = [] := by
  simp only [extractTag, splitOnSub_eq_none (openTagLit tag) (openTagLit_ne_nil tag) s h]

theorem extractTag_spec (tag : String) (s : List Char) :
    (∃ pre c post, s = pre ++ openTagLit tag ++ c ++ closeTagLit tag ++ post
      ∧ (∀ i, i < pre.length → occursAt (openTagLit tag) s i = false)
      ∧ (∀ j, j < c.length →
          occursAt (closeTagLit tag) (c ++ closeTagLit tag ++ post) j = false)
      ∧ extractTag s tag = pyStrip c)
    ∨ extractTag s tag = [] := by
  cases h1 : splitOnSub (openTagLit tag) s with
  | none =>
    right
    simp only [extractTag, h1]
  | some pr1 =>
    obtain ⟨pre, rest⟩ := pr1
    cases h2 : splitOnSub (closeTagLit tag) rest with
    | none =>
      right
      simp only [extractTag, h1, h2]
    | some pr2 =>
      obtain ⟨c, post⟩ := pr2
      left
      have hd1 := splitOnSub_eq_some _ _ _ _ h1
      have hd2 := splitOnSub_eq_some _ _ _ _ h2
      refine ⟨pre, c, post, ?_, ?_, ?_, by simp only [extractTag, h1, h2]⟩
      · rw [hd1, hd2]
        simp [List.append_assoc]
      · exact fun i hi => splitOnSub_min _ _ _ _ h1 i hi
      · intro j hj
        have := splitOnSub_min _ _ _ _ h2 j hj
        rwa [hd2] at this

/-! ## Claim C6 -/

/-- Claim C6: for every input text, `parse_response` returns (it is a
total function, so it never raises); its status field is `done` exactly
when the first `status` tag's content, lower-cased and trimmed, is one of
`done`, `complete`, `finished` — the first tag content being witnessed by
a decomposition of the text at the first occurrence of the opening
literal, with the content running to the first closing literal after it —
and the status is `continue` in every other case, including when no
status tag is present. -/
theorem claim_C6 (text : String) :
    ((parse_response text).status = "done" ∨ (parse_response text).status = "continue")
    ∧ ((parse_response text).status = "done" ↔
        ∃ pre c post,
          text.data = pre ++ openTagLit "status" ++ c ++ closeTagLit "status" ++ post
          ∧ (∀ i, i < pre.length → occursAt (openTagLit "status") text.data i = false)
          ∧ (∀ j, j < c.length →
              occursAt (closeTagLit "status") (c ++ closeTagLit "status" ++ post) j = false)
          ∧ pyStrip (pyLower c) ∈ doneSynonyms) := by
  have hstat : (parse_response text).status =
      (if pyStrip (pyLower (extractTag text.data "status")) ∈ doneSynonyms then "done"
       else "continue") := rfl
  constructor
  · rw [hstat]
    by_cases hp : pyStrip (pyLower (extractTag text.data "status")) ∈ doneSynonyms
    · left
      rw [if_pos hp]
    · right
      rw [if_neg hp]
  · constructor
    · intro hdone
      rw [hstat] at hdone
      by_cases hp : pyStrip (pyLower (extractTag text.data "status")) ∈ doneSynonyms
      · rcases extractTag_spec "status" text.data with
          ⟨pre, c, post, hdec, hpre, hc, hext⟩ | hnil
        · refine ⟨pre, c, post, hdec, hpre, hc, ?_⟩
          rw [hext, strip_lower_strip] at hp
          exact hp
        · rw [hnil] at hp
          exact absurd hp (by decide)
      · rw [if_neg hp] at hdone
        exact absurd hdone (by decide)
    · rintro ⟨pre, c, post, hdec, hpre, hc, hmem⟩
      have hext := extractTag_of_decomp "status" text.data pre c post hdec hpre hc
      rw [hstat, hext, strip_lower_strip, if_pos hmem]

/-! ## Characterization of the replace-layer regex model -/

theorem matchReplaceAt_nil : matchReplaceAt [] = none := rfl

theorem matchReplaceAt_not_open (s : List Char)
    (h : openReplaceLit.isPrefixOf s = false) : matchReplaceAt s = none := by
  simp only [matchReplaceAt, h, Bool.false_eq_true, if_false]

theorem findReplace_none (s : List Char)
    (h : ∀ i, matchReplaceAt (s.drop i) = none) : findReplace s = none := by
  induction s with
  | nil => rfl
  | cons a rest ih =>
    unfold findReplace
    have h0 := h 0
    rw [List.drop_zero] at h0
    rw [h0]
    exact ih (fun i => h (i + 1))

theorem findReplace_append (r : List Char × List Char) : ∀ pre rest : List Char,
    (∀ i, i < pre.length → occursAt openReplaceLit (pre ++ rest) i = false) →
    matchReplaceAt rest = some r → findReplace (pre ++ rest) = some r := by
  intro pre
  induction pre with
  | nil =>
    intro rest _ hm
    cases rest with
    | nil => rw [matchReplaceAt_nil] at hm; cases hm
    | cons a t =>
      rw [List.nil_append]
      unfold findReplace
      rw [hm]
  | cons a pre2 ih =>
    intro rest hpre hm
    rw [List.cons_append]
    unfold findReplace
    have h0 : matchReplaceAt (a :: (pre2 ++ rest)) = none := by
      apply matchReplaceAt_not_open
      have h1 := hpre 0 (by simp)
      unfold occursAt at h1
      rwa [List.drop_zero, List.cons_append] at h1
    rw [h0]
    exact ih rest (fun i hi => by
      have h2 := hpre (i + 1) (by simpa using Nat.succ_lt_succ hi)
      rwa [List.cons_append, occursAt_succ] at h2) hm

theorem takeWhile_append_cons (p : Char → Bool) : ∀ (w : List Char) (b : Char) (t : List Char),
    (∀ ch ∈ w, p ch = true) → p b = false → (w ++ b :: t).takeWhile p = w := by
  intro w
  induction w with
  | nil =>
    intro b t _ hb
    rw [List.nil_append, List.takeWhile_cons, if_neg (by simp [hb])]
  | cons a w2 ih =>
    intro b t hall hb
    rw [List.cons_append, List.takeWhile_cons,
      if_pos (hall a (List.mem_cons_self a w2)),
      ih b t (fun ch hch => hall ch (List.mem_cons_of_mem a hch)) hb]

theorem matchReplaceAt_block (w X c post : List Char)
    (hw : w ≠ []) (hws : ∀ ch ∈ w, isPySpace ch = true)
    (hX : X ≠ []) (hXq : ∀ ch ∈ X, ch ≠ '\"')
    (hc : ∀ j, j < c.length →
      occursAt closeReplaceLit (c ++ closeReplaceLit ++ post) j = false) :
    matchReplaceAt (openReplaceLit ++
        (w ++ (idAttrLit ++ (X ++ ('\"' :: '>' :: (c ++ (closeReplaceLit ++ post)))))))
      = some (X, c) := by
  have h1 : openReplaceLit.isPrefixOf (openReplaceLit ++
      (w ++ (idAttrLit ++ (X ++ ('\"' :: '>' :: (c ++ (closeReplaceLit ++ post))))))) = true :=
    isPrefixOf_append _ _
  have h2 : (openReplaceLit ++
      (w ++ (idAttrLit ++ (X ++ ('\"' :: '>' :: (c ++ (closeReplaceLit ++ post))))))).drop
        openReplaceLit.length
      = w ++ (idAttrLit ++ (X ++ ('\"' :: '>' :: (c ++ (closeReplaceLit ++ post))))) :=
    List.drop_left _ _
  have hid : idAttrLit ++ (X ++ ('\"' :: '>' :: (c ++ (closeReplaceLit ++ post))))
      = 'i' :: ('d' :: ('=' :: ('\"' ::
          (X ++ ('\"' :: '>' :: (c ++ (closeReplaceLit ++ post))))))) := rfl
  have h3 : (w ++ (idAttrLit ++ (X ++ ('\"' :: '>' ::
      (c ++ (closeReplaceLit ++ post)))))).takeWhile isPySpace = w := by
    rw [hid]
    exact takeWhile_append_cons isPySpace w 'i' _ hws (by decide)
  have h4 : w.isEmpty = false := by
    cases w with
    | nil => exact absurd rfl hw
    | cons a t => rfl
  have h5 : (w ++ (idAttrLit ++ (X ++ ('\"' :: '>' ::
      (c ++ (closeReplaceLit ++ post)))))).drop w.length
      = idAttrLit ++ (X ++ ('\"' :: '>' :: (c ++ (closeReplaceLit ++ post)))) :=
    List.drop_left _ _
  have h6 : idAttrLit.isPrefixOf (idAttrLit ++ (X ++ ('\"' :: '>' ::
      (c ++ (closeReplaceLit ++ post))))) = true := isPrefixOf_append _ _
  have h7 : (idAttrLit ++ (X ++ ('\"' :: '>' ::
      (c ++ (closeReplaceLit ++ post))))).drop idAttrLit.length
      = X ++ ('\"' :: '>' :: (c ++ (closeReplaceLit ++ post))) := List.drop_left _ _
  have h8 : (X ++ ('\"' :: '>' :: (c ++ (closeReplaceLit ++ post)))).takeWhile
      (fun ch => ch ≠ '\"') = X := by
    apply takeWhile_append_cons _ X '\"' _ ?_ (by decide)
    intro ch hch
    exact decide_eq_true (hXq ch hch)
  have h9 : X.isEmpty = false := by
    cases X with
    | nil => exact absurd rfl hX
    | cons a t => rfl
  have h10 : (X ++ ('\"' :: '>' :: (c ++ (closeReplaceLit ++ post)))).drop X.length
      = '\"' :: '>' :: (c ++ (closeReplaceLit ++ post)) := List.drop_left _ _
  have h11 : ("\">".data).isPrefixOf ('\"' :: '>' :: (c ++ (closeReplaceLit ++ post))) = true :=
    isPrefixOf_append ['\"', '>'] _
  have h12 : ('\"' :: '>' :: (c ++ (closeReplaceLit ++ post))).drop 2
      = c ++ (closeReplaceLit ++ post) := rfl
  have h13 : splitOnSub closeReplaceLit (c ++ (closeReplaceLit ++ post)) = some (c, post) := by
    rw [← List.append_assoc]
    exact splitOnSub_of_first closeReplaceLit c post hc
  simp only [matchReplaceAt, h1, if_true, h2, h3, h4, h5, h6, h7, h8, h9, h10, h11, h12, h13,
    Bool.false_eq_true, if_false]

theorem matchReplaceAt_gt (t : List Char) :
    matchReplaceAt (openReplaceLit ++ '>' :: t) = none := by
  have h1 : openReplaceLit.isPrefixOf (openReplaceLit ++ '>' :: t) = true :=
    isPrefixOf_append _ _
  have h2 : (openReplaceLit ++ '>' :: t).drop openReplaceLit.length = '>' :: t :=
    List.drop_left _ _
  have h3 : ('>' :: t).takeWhile isPySpace = [] := by
    rw [List.takeWhile_cons, if_neg (by decide)]
  simp only [matchReplaceAt, h1, if_true, h2, h3, List.isEmpty_nil, if_true]

/-! ## Claims C7 and C10 -/

/-- Claim C7, as stated, is refuted at a concrete input: the text
`c7text` contains a replace-layer block with id `B` (its second block,
whose content is a single space), yet `parse_response` does not yield
`replace_layer_id = some "B"` — the leftmost regex match wins, yielding
`some "A"` — and in particular it does not yield a non-empty
`replace_elements` for that block. -/
theorem claim_C7_counterexample :
    ContainsReplaceBlock c7text "B"
    ∧ ¬ ((parse_response c7text).replace_layer_id = some "B"
        ∧ ∃ e, (parse_response c7text).replace_elements = some e ∧ e ≠ "") := by
  constructor
  · exact ⟨"<replace-layer id=\"A\">x</replace-layer>", " ", "", by decide⟩
  · intro h
    exact absurd h.1 (by decide)

/-- Claim C7, amended: when the FIRST match of the replace-layer regex in
the text is a block with id `X` and content `c` — witnessed by a
decomposition whose opening literal has no earlier occurrence, with a
non-empty all-whitespace gap `w`, a non-empty quote-free id `X`, and the
content running to the first closing literal — `parse_response` yields
`replace_layer_id = some X` and `replace_elements = some (trim c)`, which
is non-empty whenever `c` trims non-empty (rather than always, as the
claim stated); and when the opening literal `<replace-layer` occurs
nowhere in the text, both fields are `None`. -/
theorem claim_C7 (text : String) :
    (∀ pre w X c post,
      text.data = pre ++ openReplaceLit ++ w ++ idAttrLit ++ X ++ "\">".data ++ c
        ++ closeReplaceLit ++ post →
      (∀ i, i < pre.length → occursAt openReplaceLit text.data i = false) →
      w ≠ [] → (∀ ch ∈ w, isPySpace ch = true) →
      X ≠ [] → (∀ ch ∈ X, ch ≠ '\"') →
      (∀ j, j < c.length →
        occursAt closeReplaceLit (c ++ closeReplaceLit ++ post) j = false) →
      (parse_response text).replace_layer_id = some (String.mk X)
        ∧ (parse_response text).replace_elements = some (String.mk (pyStrip c))
        ∧ (pyStrip c ≠ [] → (parse_response text).replace_elements ≠ some ""))
    ∧ ((∀ i, i ≤ text.data.length → occursAt openReplaceLit text.data i = false) →
      (parse_response text).replace_layer_id = none
        ∧ (parse_response text).replace_elements = none) := by
  have hid : (parse_response text).replace_layer_id
      = (findReplace text.data).map (fun p => String.mk p.1) := rfl
  have hel : (parse_response text).replace_elements
      = (findReplace text.data).map (fun p => String.mk (pyStrip p.2)) := rfl
  constructor
  · intro pre w X c post hdec hpre hw hws hX hXq hc
    have hq : ("\">".data : List Char) = ['\"', '>'] := rfl
    have hs2 : text.data = pre ++ (openReplaceLit ++
        (w ++ (idAttrLit ++ (X ++ ('\"' :: '>' :: (c ++ (closeReplaceLit ++ post))))))) := by
      rw [hdec, hq]
      simp only [List.append_assoc, List.cons_append, List.nil_append]
    have hfind : findReplace text.data = some (X, c) := by
      rw [hs2]
      exact findReplace_append (X, c) pre _
        (fun i hi => by rw [← hs2]; exact hpre i hi)
        (matchReplaceAt_block w X c post hw hws hX hXq hc)
    refine ⟨?_, ?_, ?_⟩
    · rw [hid, hfind]
      rfl
    · rw [hel, hfind]
      rfl
    · intro hne
      rw [hel, hfind]
      simp only [Option.map_some', Option.some.injEq, ne_eq]
      intro hcontr
      exact hne (congrArg String.data hcontr)
  · intro hno
    have hfind : findReplace text.data = none := by
      apply findReplace_none
      intro i
      by_cases hi : i ≤ text.data.length
      · apply matchReplaceAt_not_open
        have := hno i hi
        unfold occursAt at this
        exact this
      · rw [List.drop_eq_nil_of_le (by omega)]
        exact matchReplaceAt_nil
    rw [hid, hel, hfind]
    exact ⟨rfl, rfl⟩

/-- Claim C10, as stated, is refuted at a concrete input: `c10text`
contains a replace-layer block whose opening tag has no id attribute,
yet `parse_response` does not treat the directive as absent — the regex
simply skips the id-less block and matches the later block that does
carry an id, so `replace_layer_id = some "Y"` rather than `None`. -/
theorem claim_C10_counterexample :
    ContainsIdlessBlock c10text
    ∧ ¬ ((parse_response c10text).replace_layer_id = none
        ∧ (parse_response c10text).replace_elements = none)
    ∧ (parse_response c10text).replace_layer_id = some "Y" := by
  refine ⟨⟨"", "x", "<replace-layer id=\"Y\">z</replace-layer>", by decide⟩, ?_, by decide⟩
  intro h
  exact absurd h.1 (by decide)

/-- Claim C10, amended: for every input text containing a replace-layer
block whose opening tag has no id attribute (the opening literal is
followed directly by `>`), and — as the program forces — containing no
other occurrence of the opening literal `<replace-layer`, `parse_response`
treats the block as absent: both `replace_layer_id` and
`replace_elements` are `None` (and the parser is a total function, so no
error is raised). -/
theorem claim_C10 (text : String) (pre c post : List Char)
    (hdec : text.data = pre ++ openTagLit "replace-layer" ++ c
      ++ closeTagLit "replace-layer" ++ post)
    (honly : ∀ i, i ≤ text.data.length → i ≠ pre.length →
      occursAt openReplaceLit text.data i = false) :
    (parse_response text).replace_layer_id = none
      ∧ (parse_response text).replace_elements = none := by
  have hid : (parse_response text).replace_layer_id
      = (findReplace text.data).map (fun p => String.mk p.1) := rfl
  have hel : (parse_response text).replace_elements
      = (findReplace text.data).map (fun p => String.mk (pyStrip p.2)) := rfl
  have hopen : openTagLit "replace-layer" = openReplaceLit ++ ['>'] := rfl
  have hs2 : text.data = pre ++ (openReplaceLit ++
      ('>' :: (c ++ (closeTagLit "replace-layer" ++ post)))) := by
    rw [hdec, hopen]
    simp only [List.append_assoc, List.cons_append, List.nil_append]
  have hfind : findReplace text.data = none := by
    apply findReplace_none
    intro i
    by_cases hi : i ≤ text.data.length
    · by_cases hip : i = pre.length
      · subst hip
        have hdrop : text.data.drop pre.length
            = openReplaceLit ++ ('>' :: (c ++ (closeTagLit "replace-layer" ++ post))) := by
          rw [hs2]
          exact List.drop_left _ _
        rw [hdrop]
        exact matchReplaceAt_gt _
      · apply matchReplaceAt_not_open
        have := honly i hi hip
        unfold occursAt at this
        exact this
    · rw [List.drop_eq_nil_of_le (by omega)]
      exact matchReplaceAt_nil
  rw [hid, hel, hfind]
  exact ⟨rfl, rfl⟩

/-- Witness for claim C6 at a concrete input: `<status>Done</status>`
parses to status `done`. -/
theorem claim_C6_witness : (parse_response "<status>Done</status>").status = "done" := by
  apply (claim_C6 "<status>Done</status>").2.mpr
  exact ⟨[], "Done".data, [], by decide, fun i hi => absurd hi (Nat.not_lt_zero i),
    by decide, by decide⟩

/-- Witness for the amended claim C7 at a concrete input. -/
theorem claim_C7_witness :
    (parse_response "<replace-layer id=\"X\">abc</replace-layer>").replace_layer_id = some "X"
    ∧ (parse_response "<replace-layer id=\"X\">abc</replace-layer>").replace_elements
      = some "abc" := by
  have h := (claim_C7 "<replace-layer id=\"X\">abc</replace-layer>").1
    [] [' '] "X".data "abc".data []
    (by decide) (fun i hi => absurd hi (Nat.not_lt_zero i))
    (by decide) (by decide) (by decide) (by decide) (by decide)
  exact ⟨h.1, h.2.1⟩

/-- Witness for claim C10 at a concrete input. -/
theorem claim_C10_witness :
    (parse_response "<replace-layer>x</replace-layer>").replace_layer_id = none
    ∧ (parse_response "<replace-layer>x</replace-layer>").replace_elements = none :=
  claim_C10 "<replace-layer>x</replace-layer>" [] "x".data [] (by decide) (by decide)

/-! ## Association list lemmas (Python dict semantics) -/

theorem dictContains_iff (k : String) (d : List (String × String)) :
    dictContains d k = true ↔ ∃ p ∈ d, p.1 = k := by
  unfold dictContains
  rw [List.any_eq_true]
  simp only [decide_eq_true_eq]

theorem dictContains_false_iff (k : String) (d : List (String × String)) :
    dictContains d k = false ↔ ∀ p ∈ d, p.1 ≠ k := by
  rw [← Bool.not_eq_true, dictContains_iff]
  push_neg
  rfl

theorem find?_key_map_set (k v : String) : ∀ d : List (String × String),
    (∃ p ∈ d, p.1 = k) →
    (d.map (fun p => if p.1 = k then (k, v) else p)).find? (fun p => p.1 = k)
      = some (k, v) := by
  intro d
  induction d with
  | nil => rintro ⟨p, hp, _⟩; simp at hp
  | cons a rest ih =>
    intro hex
    by_cases hak : a.1 = k
    · simp only [List.map_cons, if_pos hak]
      rw [List.find?_cons_of_pos _ (by simp)]
    · simp only [List.map_cons, if_neg hak]
      rw [List.find?_cons_of_neg _ (by simp [hak])]
      apply ih
      obtain ⟨p, hp, hpk⟩ := hex
      rcases List.mem_cons.mp hp with rfl | hmem
      · exact absurd hpk hak
      · exact ⟨p, hmem, hpk⟩

theorem find?_key_append_not (k v : String) : ∀ d : List (String × String),
    (∀ p ∈ d, p.1 ≠ k) →
    ((d ++ [(k, v)]).find? (fun p => p.1 = k)) = some (k, v) := by
  intro d
  induction d with
  | nil =>
    intro _
    rw [List.nil_append]
    rw [List.find?_cons_of_pos _ (by simp)]
  | cons a rest ih =>
    intro hall
    rw [List.cons_append,
      List.find?_cons_of_neg _ (by simp [hall a (List.mem_cons_self a rest)])]
    exact ih (fun p hp => hall p (List.mem_cons_of_mem a hp))

theorem dictGet_dictSet_self (k v : String) (d : List (String × String)) :
    dictGet (dictSet d k v) k = some v := by
  unfold dictSet dictGet
  by_cases hc : dictContains d k = true
  · rw [if_pos hc, find?_key_map_set k v d ((dictContains_iff k d).mp hc)]
    rfl
  · rw [if_neg hc, find?_key_append_not k v d
      ((dictContains_false_iff k d).mp (Bool.eq_false_iff.mpr hc))]
    rfl

theorem find?_key2_map_set (k v k2 : String) (h : k2 ≠ k) : ∀ d : List (String × String),
    ((d.map (fun p => if p.1 = k then (k, v) else p)).find? (fun p => p.1 = k2))
      = d.find? (fun p => p.1 = k2) := by
  intro d
  induction d with
  | nil => rfl
  | cons a rest ih =>
    by_cases hak : a.1 = k
    · simp only [List.map_cons, if_pos hak]
      rw [List.find?_cons_of_neg _ (by simp [Ne.symm h]),
        List.find?_cons_of_neg _ (by simp [hak, Ne.symm h])]
      exact ih
    · simp only [List.map_cons, if_neg hak]
      by_cases hak2 : a.1 = k2
      · rw [List.find?_cons_of_pos _ (by simp [hak2]),
          List.find?_cons_of_pos _ (by simp [hak2])]
      · rw [List.find?_cons_of_neg _ (by simp [hak2]),
          List.find?_cons_of_neg _ (by simp [hak2])]
        exact ih

theorem dictGet_dictSet_ne (k v k2 : String) (d : List (String × String)) (h : k2 ≠ k) :
    dictGet (dictSet d k v) k2 = dictGet d k2 := by
  unfold dictSet dictGet
  by_cases hc : dictContains d k = true
  · rw [if_pos hc, find?_key2_map_set k v k2 h d]
  · rw [if_neg hc, List.find?_append]
    have hone : (([(k, v)] : List (String × String)).find? (fun p => p.1 = k2)) = none := by
      rw [List.find?_cons_of_neg _ (by simp [Ne.symm h])]
      rfl
    rw [hone, Option.or_none]

theorem dictGet_dictDel_self (k : String) (d : List (String × String)) :
    dictGet (dictDel d k) k = none := by
  unfold dictDel dictGet
  have hfind : ((d.filter (fun p => p.1 ≠ k)).find? (fun p => p.1 = k)) = none := by
    rw [List.find?_eq_none]
    intro p hp
    have hmem := List.of_mem_filter hp
    simp only [decide_eq_true_eq] at hmem ⊢
    exact hmem
  rw [hfind]
  rfl

theorem dictGet_dictDel_ne (k k2 : String) (d : List (String × String)) (h : k2 ≠ k) :
    dictGet (dictDel d k) k2 = dictGet d k2 := by
  unfold dictDel dictGet
  induction d with
  | nil => rfl
  | cons a rest ih =>
    by_cases hak : a.1 = k
    · rw [List.filter_cons_of_neg (by simp [hak]),
        List.find?_cons_of_neg _ (by simp [hak, Ne.symm h])]
      exact ih
    · rw [List.filter_cons_of_pos (by simp [hak])]
      by_cases hak2 : a.1 = k2
      · rw [List.find?_cons_of_pos _ (by simp [hak2]),
          List.find?_cons_of_pos _ (by simp [hak2])]
      · rw [List.find?_cons_of_neg _ (by simp [hak2]),
          List.find?_cons_of_neg _ (by simp [hak2])]
        exact ih

theorem dictGet_eq_none_of_not_contains (k : String) (d : List (String × String))
    (h : dictContains d k = false) : dictGet d k = none := by
  unfold dictGet
  have hfind : (d.find? (fun p => p.1 = k)) = none := by
    rw [List.find?_eq_none]
    intro p hp
    have hne := (dictContains_false_iff k d).mp h p hp
    simpa using hne
  rw [hfind]
  rfl

/-! ## Claims C4 and C8 -/

/-- Claim C4: for every layer store and every `layer_id` absent from its
layers, `replace_layer` fails with the lookup error (`KeyError`) carrying
that id, and returns the store completely unmodified — the same layers,
defs, and next-layer counter (the whole canvas record is unchanged). -/
theorem claim_C4 (c : SvgCanvas) (layer_id svg_elements : String) (defs : Option String)
    (h : dictContains c.layers layer_id = false) :
    c.replace_layer layer_id svg_elements defs
      = (some (CanvasError.keyError layer_id), c) := by
  unfold SvgCanvas.replace_layer
  rw [if_pos (by simp [h])]

/-- Witness for claim C4 at a concrete input: replacing `layer-1` on the
empty default canvas fails with the lookup error and returns the canvas
unchanged. -/
theorem claim_C4_witness :
    SvgCanvas.replace_layer {} "layer-1" "x" none
      = (some (CanvasError.keyError "layer-1"), ({} : SvgCanvas)) :=
  claim_C4 {} "layer-1" "x" none (by decide)

theorem replace_layer_success (c : SvgCanvas) (layer_id svg_elements : String)
    (defs : Option String) (h : dictContains c.layers layer_id = true) :
    c.replace_layer layer_id svg_elements defs
      = (none, { c with
          layers := dictSet c.layers layer_id (pyStripStr svg_elements)
          defs := if defs.getD "" ≠ "" ∧ pyStripStr (defs.getD "") ≠ ""
            then dictSet c.defs layer_id (pyStripStr (defs.getD ""))
            else if dictContains c.defs layer_id then dictDel c.defs layer_id
            else c.defs }) := by
  unfold SvgCanvas.replace_layer
  rw [if_neg (by simp [h])]
  cases defs with
  | none =>
    simp only [Option.getD_none, ne_eq, not_true_eq_false, false_and, if_false]
    by_cases hcd : dictContains c.defs layer_id = true <;> simp [hcd]
  | some d =>
    simp only [Option.getD_some]
    by_cases hcond : d ≠ "" ∧ pyStripStr d ≠ ""
    · rw [if_pos (by simp [hcond.1, hcond.2]), if_pos hcond]
    · rw [if_neg (by simpa using hcond), if_neg hcond]
      by_cases hcd : dictContains c.defs layer_id = true <;> simp [hcd]

/-- Claim C8: for every layer store containing `layer_id`, a successful
`replace_layer` overwrites that layer's markup with the trimmed markup
(other layers unchanged); if `aux` is supplied and non-empty after
trimming it replaces the stored auxiliary content for that id, and
otherwise any previously stored auxiliary content for that id is removed
(other defs entries unchanged); the next-layer counter is untouched. -/
theorem claim_C8 (c : SvgCanvas) (layer_id svg_elements : String) (defs : Option String)
    (h : dictContains c.layers layer_id = true) :
    (c.replace_layer layer_id svg_elements defs).1 = none
    ∧ dictGet (c.replace_layer layer_id svg_elements defs).2.layers layer_id
        = some (pyStripStr svg_elements)
    ∧ (∀ k, k ≠ layer_id →
        dictGet (c.replace_layer layer_id svg_elements defs).2.layers k = dictGet c.layers k)
    ∧ ((defs.getD "" ≠ "" ∧ pyStripStr (defs.getD "") ≠ "") →
        dictGet (c.replace_layer layer_id svg_elements defs).2.defs layer_id
          = some (pyStripStr (defs.getD "")))
    ∧ (¬(defs.getD "" ≠ "" ∧ pyStripStr (defs.getD "") ≠ "") →
        dictGet (c.replace_layer layer_id svg_elements defs).2.defs layer_id = none)
    ∧ (∀ k, k ≠ layer_id →
        dictGet (c.replace_layer layer_id svg_elements defs).2.defs k = dictGet c.defs k)
    ∧ (c.replace_layer layer_id svg_elements defs).2.next_layer = c.next_layer := by
  rw [replace_layer_success c layer_id svg_elements defs h]
  refine ⟨rfl, ?_, ?_, ?_, ?_, ?_, rfl⟩
  · exact dictGet_dictSet_self layer_id (pyStripStr svg_elements) c.layers
  · intro k hk
    exact dictGet_dictSet_ne layer_id (pyStripStr svg_elements) k c.layers hk
  · intro hcond
    simp only [if_pos hcond]
    exact dictGet_dictSet_self layer_id (pyStripStr (defs.getD "")) c.defs
  · intro hcond
    simp only [if_neg hcond]
    by_cases hcd : dictContains c.defs layer_id = true
    · rw [if_pos hcd]
      exact dictGet_dictDel_self layer_id c.defs
    · rw [if_neg hcd]
      exact dictGet_eq_none_of_not_contains layer_id c.defs (Bool.eq_false_iff.mpr hcd)
  · intro k hk
    by_cases hcond : defs.getD "" ≠ "" ∧ pyStripStr (defs.getD "") ≠ ""
    · simp only [if_pos hcond]
      exact dictGet_dictSet_ne layer_id (pyStripStr (defs.getD "")) k c.defs hk
    · simp only [if_neg hcond]
      by_cases hcd : dictContains c.defs layer_id = true
      · rw [if_pos hcd]
        exact dictGet_dictDel_ne layer_id k c.defs hk
      · rw [if_neg hcd]

/-- Witness for claim C8 at a concrete input: replacing the only layer of
a one-layer store with fresh markup and no aux clears the stored aux. -/
theorem claim_C8_witness :
    (SvgCanvas.replace_layer
        { layers := [("layer-1", "<rect/>")], defs := [("layer-1", "<filter/>")],
          next_layer := 2 } "layer-1" " <circle/> " none).1 = none
    ∧ dictGet (SvgCanvas.replace_layer
        { layers := [("layer-1", "<rect/>")], defs := [("layer-1", "<filter/>")],
          next_layer := 2 } "layer-1" " <circle/> " none).2.layers "layer-1"
        = some "<circle/>"
    ∧ dictGet (SvgCanvas.replace_layer
        { layers := [("layer-1", "<rect/>")], defs := [("layer-1", "<filter/>")],
          next_layer := 2 } "layer-1" " <circle/> " none).2.defs "layer-1" = none := by
  have h := claim_C8
    { layers := [("layer-1", "<rect/>")], defs := [("layer-1", "<filter/>")], next_layer := 2 }
    "layer-1" " <circle/> " none (by decide)
  exact ⟨h.1, h.2.1, h.2.2.2.2.1 (by decide)⟩

/-! ## Injectivity of decimal layer ids -/

theorem toDigitsCore_append (n : Nat) : ∀ f l, n < f →
    Nat.toDigitsCore 10 f n l = Nat.toDigitsCore 10 (n + 1) n [] ++ l := by
  induction n using Nat.strong_induction_on with
  | _ n ih =>
    intro f l hf
    obtain ⟨f2, rfl⟩ : ∃ f2, f = f2 + 1 := ⟨f - 1, by omega⟩
    by_cases h0 : n / 10 = 0
    · show Nat.toDigitsCore 10 (f2 + 1) n l = Nat.toDigitsCore 10 (n + 1) n [] ++ l
      unfold Nat.toDigitsCore
      simp only [h0, if_true, List.cons_append, List.nil_append]
    · have hn0 : 0 < n := by
        rcases Nat.eq_zero_or_pos n with rfl | hp
        · simp at h0
        · exact hp
      have hdiv : n / 10 < n := Nat.div_lt_self hn0 (by omega)
      have hstep : ∀ g l2, n < g + 1 →
          Nat.toDigitsCore 10 (g + 1) n l2
            = Nat.toDigitsCore 10 ((n / 10) + 1) (n / 10) [] ++
              (Nat.digitChar (n % 10) :: l2) := by
        intro g l2 hg
        show Nat.toDigitsCore 10 (g + 1) n l2 = _
        unfold Nat.toDigitsCore
        simp only [h0, if_false]
        exact ih (n / 10) hdiv g _ (by omega)
      rw [hstep f2 l hf, hstep n [] (by omega)]
      rw [List.append_assoc]
      rfl

theorem valOfDigits_append_single (l : List Char) (ch : Char) :
    valOfDigits (l ++ [ch]) = valOfDigits l * 10 + digitVal ch := by
  unfold valOfDigits
  rw [List.foldl_append]
  rfl

theorem digitVal_digitChar (d : Nat) (h : d < 10) :
    digitVal (Nat.digitChar d) = d := by
  interval_cases d <;> decide

theorem valOfDigits_toDigits (n : Nat) :
    valOfDigits (Nat.toDigitsCore 10 (n + 1) n []) = n := by
  induction n using Nat.strong_induction_on with
  | _ n ih =>
    by_cases h0 : n / 10 = 0
    · have hn : n < 10 := by
        by_contra hge
        have : 1 ≤ n / 10 := Nat.le_div_iff_mul_le (by omega) |>.mpr (by omega)
        omega
      show valOfDigits (Nat.toDigitsCore 10 (n + 1) n []) = n
      unfold Nat.toDigitsCore
      simp only [h0, if_true]
      show valOfDigits [Nat.digitChar (n % 10)] = n
      unfold valOfDigits
      simp only [List.foldl_cons, List.foldl_nil, Nat.zero_mul, Nat.zero_add]
      show digitVal (Nat.digitChar (n % 10)) = n
      rw [Nat.mod_eq_of_lt hn]
      exact digitVal_digitChar n hn
    · have hn0 : 0 < n := by
        rcases Nat.eq_zero_or_pos n with rfl | hp
        · simp at h0
        · exact hp
      have hdiv : n / 10 < n := Nat.div_lt_self hn0 (by omega)
      have hrec : Nat.toDigitsCore 10 (n + 1) n []
          = Nat.toDigitsCore 10 ((n / 10) + 1) (n / 10) [] ++ [Nat.digitChar (n % 10)] := by
        show Nat.toDigitsCore 10 (n + 1) n [] = _
        unfold Nat.toDigitsCore
        simp only [h0, if_false]
        exact toDigitsCore_append (n / 10) n [Nat.digitChar (n % 10)] (by omega)
      rw [hrec, valOfDigits_append_single, ih (n / 10) hdiv,
        digitVal_digitChar (n % 10) (Nat.mod_lt n (by omega))]
      have := Nat.div_add_mod n 10
      omega

theorem natRepr_injective : Function.Injective Nat.repr := by
  intro m n h
  have hdata : Nat.toDigits 10 m = Nat.toDigits 10 n := by
    have hd := congrArg String.data h
    simpa [Nat.repr, List.asString] using hd
  have h1 := valOfDigits_toDigits m
  have h2 := valOfDigits_toDigits n
  unfold Nat.toDigits at hdata
  rw [hdata] at h1
  omega

theorem layerId_injective (a b : Nat)
    (h : "layer-" ++ Nat.repr a = "layer-" ++ Nat.repr b) : a = b := by
  have hd := congrArg String.data h
  simp only [String.data_append] at hd
  have hcancel := List.append_cancel_left hd
  exact natRepr_injective (String.ext hcancel)

/-! ## Claim C3 -/

theorem add_layer_id (c : SvgCanvas) (svg : String) (d : Option String) :
    (c.add_layer svg d).1 = "layer-" ++ Nat.repr c.next_layer := by
  cases d with
  | none => rfl
  | some s => rfl

theorem add_layer_next (c : SvgCanvas) (svg : String) (d : Option String) :
    (c.add_layer svg d).2.next_layer = c.next_layer + 1 := by
  cases d with
  | none => rfl
  | some s =>
    simp only [SvgCanvas.add_layer]
    split <;> rfl

theorem applyOps_spec : ∀ (ops : List CanvasOp) (c : SvgCanvas),
    (applyOps c ops).2 = (List.range (countAdds ops)).map
      (fun i => "layer-" ++ Nat.repr (c.next_layer + i))
    ∧ (applyOps c ops).1.next_layer = c.next_layer + countAdds ops := by
  intro ops
  induction ops with
  | nil => exact fun c => ⟨rfl, rfl⟩
  | cons op rest ih =>
    intro c
    cases op with
    | add svg d =>
      obtain ⟨ihids, ihnext⟩ := ih (c.add_layer svg d).2
      constructor
      · show [(c.add_layer svg d).1] ++ (applyOps (c.add_layer svg d).2 rest).2 = _
        rw [add_layer_id, ihids, add_layer_next,
          show countAdds (CanvasOp.add svg d :: rest) = countAdds rest + 1 from rfl,
          List.range_succ_eq_map, List.map_cons, List.map_map]
        rw [List.singleton_append]
        congr 1
        apply List.map_congr_left
        intro i _
        show "layer-" ++ Nat.repr (c.next_layer + 1 + i)
          = "layer-" ++ Nat.repr (c.next_layer + (i + 1))
        rw [show c.next_layer + 1 + i = c.next_layer + (i + 1) by omega]
      · show (applyOps (c.add_layer svg d).2 rest).1.next_layer = _
        rw [ihnext, add_layer_next,
          show countAdds (CanvasOp.add svg d :: rest) = countAdds rest + 1 from rfl]
        omega
    | rollback lid =>
      obtain ⟨ihids, ihnext⟩ := ih { c with
        layers := dictDel c.layers lid
        defs := if dictContains c.defs lid then dictDel c.defs lid else c.defs }
      exact ⟨ihids, ihnext⟩

/-- Claim C3: applying any sequence of driver canvas operations
(`add_layer` calls interleaved with rollback deletions) to a fresh layer
store, the identifiers returned by the `add_layer` calls are exactly
`layer-1`, `layer-2`, … in strictly increasing sequence order (the k-th
add returns `layer-k`), and no identifier is ever reused — the returned
list has no duplicates — even when layers are deleted by the rollback of
a failed validation render. -/
theorem claim_C3 (ops : List CanvasOp) :
    (applyOps {} ops).2 = (List.range (countAdds ops)).map
      (fun i => "layer-" ++ Nat.repr (i + 1))
    ∧ ((applyOps {} ops).2).Nodup := by
  have hspec := (applyOps_spec ops {}).1
  have hfun : (fun i => "layer-" ++ Nat.repr (({} : SvgCanvas).next_layer + i))
      = fun i : Nat => "layer-" ++ Nat.repr (i + 1) := by
    funext i
    rw [show ({} : SvgCanvas).next_layer + i = i + 1 by show 1 + i = i + 1; omega]
  rw [hspec, hfun]
  refine ⟨rfl, ?_⟩
  have hinj : Function.Injective (fun i : Nat => "layer-" ++ Nat.repr (i + 1)) := by
    intro a b hab
    have := layerId_injective (a + 1) (b + 1) hab
    omega
  exact List.Nodup.map hinj (List.nodup_range _)

/-! ## Frame lemmas for the loop body pieces -/

theorem dictContains_dictSet_self (k v : String) (d : List (String × String)) :
    dictContains (dictSet d k v) k = true := by
  by_cases h : dictContains (dictSet d k v) k = true
  · exact h
  · have := dictGet_eq_none_of_not_contains k (dictSet d k v) (Bool.eq_false_iff.mpr h)
    rw [dictGet_dictSet_self] at this
    cases this

theorem dictContains_dictDel_self (k : String) (d : List (String × String)) :
    dictContains (dictDel d k) k = false := by
  rw [dictContains_false_iff]
  intro p hp
  have := List.of_mem_filter hp
  simpa using this

theorem replace_layer_next (c : SvgCanvas) (k v : String) (d : Option String) :
    (c.replace_layer k v d).2.next_layer = c.next_layer := by
  by_cases h : dictContains c.layers k = true
  · rw [replace_layer_success c k v d h]
  · unfold SvgCanvas.replace_layer
    rw [if_pos (by simp [h])]

theorem add_layer_layers (c : SvgCanvas) (svg : String) (d : Option String) :
    (c.add_layer svg d).2.layers
      = dictSet c.layers ((c.add_layer svg d).1) (pyStripStr svg) := by
  cases d with
  | none => rfl
  | some s =>
    simp only [SvgCanvas.add_layer]
    split <;> rfl

theorem applyBackground_frame (parsed : ParsedResponse) (s : DrawingSession) :
    (applyBackground parsed s).canvas.next_layer = s.canvas.next_layer
    ∧ (applyBackground parsed s).canvas.layers = s.canvas.layers
    ∧ (applyBackground parsed s).total_input_tokens = s.total_input_tokens
    ∧ (applyBackground parsed s).total_output_tokens = s.total_output_tokens
    ∧ (applyBackground parsed s).total_thinking_tokens = s.total_thinking_tokens
    ∧ (applyBackground parsed s).total_cache_read_tokens = s.total_cache_read_tokens
    ∧ (applyBackground parsed s).total_cache_creation_tokens = s.total_cache_creation_tokens
    ∧ (applyBackground parsed s).iteration = s.iteration
    ∧ (applyBackground parsed s).max_iterations = s.max_iterations := by
  unfold applyBackground
  cases parsed.background with
  | none => exact ⟨rfl, rfl, rfl, rfl, rfl, rfl, rfl, rfl, rfl⟩
  | some b =>
    dsimp only
    by_cases hb : b ≠ ""
    · rw [if_pos hb]
      exact ⟨rfl, rfl, rfl, rfl, rfl, rfl, rfl, rfl, rfl⟩
    · rw [if_neg hb]
      exact ⟨rfl, rfl, rfl, rfl, rfl, rfl, rfl, rfl, rfl⟩

theorem applyReplace_frame (parsed : ParsedResponse) (s : DrawingSession) (log : List String) :
    (applyReplace parsed s log).1.canvas.next_layer = s.canvas.next_layer
    ∧ (applyReplace parsed s log).1.total_input_tokens = s.total_input_tokens
    ∧ (applyReplace parsed s log).1.total_output_tokens = s.total_output_tokens
    ∧ (applyReplace parsed s log).1.total_thinking_tokens = s.total_thinking_tokens
    ∧ (applyReplace parsed s log).1.total_cache_read_tokens = s.total_cache_read_tokens
    ∧ (applyReplace parsed s log).1.total_cache_creation_tokens = s.total_cache_creation_tokens
    ∧ (applyReplace parsed s log).1.iteration = s.iteration
    ∧ (applyReplace parsed s log).1.max_iterations = s.max_iterations := by
  unfold applyReplace
  by_cases hco : (optTruthy parsed.replace_layer_id && optTruthy parsed.replace_elements) = true
  · rw [if_pos hco]
    dsimp only
    have hnext := replace_layer_next s.canvas (parsed.replace_layer_id.getD "")
      (parsed.replace_elements.getD "") none
    cases hrep : s.canvas.replace_layer (parsed.replace_layer_id.getD "")
        (parsed.replace_elements.getD "") none with
    | mk fst snd =>
      rw [hrep] at hnext
      cases fst with
      | some err => exact ⟨hnext, rfl, rfl, rfl, rfl, rfl, rfl, rfl⟩
      | none => exact ⟨hnext, rfl, rfl, rfl, rfl, rfl, rfl, rfl⟩
  · rw [if_neg hco]
    exact ⟨rfl, rfl, rfl, rfl, rfl, rfl, rfl, rfl⟩

theorem applyNewMarkup_frame (env : Env) (parsed : ParsedResponse) (s : DrawingSession)
    (log : List String) (es : Nat) :
    (applyNewMarkup env parsed s log es).1.total_input_tokens = s.total_input_tokens
    ∧ (applyNewMarkup env parsed s log es).1.total_output_tokens = s.total_output_tokens
    ∧ (applyNewMarkup env parsed s log es).1.total_thinking_tokens = s.total_thinking_tokens
    ∧ (applyNewMarkup env parsed s log es).1.total_cache_read_tokens
        = s.total_cache_read_tokens
    ∧ (applyNewMarkup env parsed s log es).1.total_cache_creation_tokens
        = s.total_cache_creation_tokens
    ∧ (applyNewMarkup env parsed s log es).1.iteration = s.iteration
    ∧ (applyNewMarkup env parsed s log es).1.max_iterations = s.max_iterations := by
  unfold applyNewMarkup
  by_cases hsvg : parsed.svg_elements ≠ ""
  · rw [if_pos hsvg]
    dsimp only
    split <;> exact ⟨rfl, rfl, rfl, rfl, rfl, rfl, rfl⟩
  · rw [if_neg hsvg]
    by_cases hrep : (!optTruthy parsed.replace_layer_id) = true
    · rw [if_pos hrep]
      exact ⟨rfl, rfl, rfl, rfl, rfl, rfl, rfl⟩
    · rw [if_neg hrep]
      exact ⟨rfl, rfl, rfl, rfl, rfl, rfl, rfl⟩

theorem applyNewMarkup_streak (env : Env) (parsed : ParsedResponse) (s : DrawingSession)
    (log : List String) (es : Nat) :
    ((applyNewMarkup env parsed s log es).2.2 = es + 1
      ∨ (applyNewMarkup env parsed s log es).2.2 = 0)
    ∧ (parsed.svg_elements = "" → optTruthy parsed.replace_layer_id = false →
        (applyNewMarkup env parsed s log es).2.2 = es + 1)
    ∧ (parsed.svg_elements = "" → optTruthy parsed.replace_layer_id = true →
        (applyNewMarkup env parsed s log es).2.2 = 0)
    ∧ (parsed.svg_elements ≠ "" →
        ((applyNewMarkup env parsed s log es).2.2 = es + 1 ↔
          dictContains (applyNewMarkup env parsed s log es).1.canvas.layers
            ("layer-" ++ Nat.repr s.canvas.next_layer) = false)) := by
  unfold applyNewMarkup
  by_cases hsvg : parsed.svg_elements ≠ ""
  · rw [if_pos hsvg]
    have hlid := add_layer_id s.canvas parsed.svg_elements
      (if parsed.defs_elements ≠ "" then some parsed.defs_elements else none)
    have hlay := add_layer_layers s.canvas parsed.svg_elements
      (if parsed.defs_elements ≠ "" then some parsed.defs_elements else none)
    dsimp only
    split
    · refine ⟨Or.inl rfl, fun h => absurd h hsvg, fun h => absurd h hsvg, fun _ => ?_⟩
      constructor
      · intro _
        show dictContains (dictDel _ _) _ = false
        rw [← hlid]
        exact dictContains_dictDel_self _ _
      · intro _
        rfl
    · refine ⟨Or.inr rfl, fun h => absurd h hsvg, fun h => absurd h hsvg, fun _ => ?_⟩
      constructor
      · intro h0
        have h1 : 0 = es + 1 := h0
        omega
      · intro hcontains
        rw [hlay, ← hlid] at hcontains
        rw [dictContains_dictSet_self] at hcontains
        cases hcontains
  · rw [if_neg hsvg]
    have hsvg2 : parsed.svg_elements = "" := by
      by_contra hne
      exact hsvg hne
    by_cases hrep : optTruthy parsed.replace_layer_id = true
    · rw [if_neg (by simp [hrep])]
      refine ⟨Or.inr rfl, ?_, ?_, ?_⟩
      · intro _ hfalse
        rw [hrep] at hfalse
        cases hfalse
      · intro _ _
        rfl
      · intro hne
        exact absurd hsvg2 hne
    · rw [if_pos (by simp [Bool.eq_false_iff.mpr hrep])]
      refine ⟨Or.inl rfl, ?_, ?_, ?_⟩
      · intro _ _
        rfl
      · intro _ htrue
        exact absurd htrue hrep
      · intro hne
        exact absurd hsvg2 hne

theorem iterFinish_spec (env : Env) (st : LoopState) (parsed : ParsedResponse)
    (s : DrawingSession) (log : List String) (streak : Nat) :
    (iterFinish env st parsed s log streak).1.sess = s
    ∧ (iterFinish env st parsed s log streak).1.empty_streak = streak
    ∧ (iterFinish env st parsed s log streak).1.responses = st.responses
    ∧ (iterFinish env st parsed s log streak).1.calls = st.calls
    ∧ ((iterFinish env st parsed s log streak).2 = some StopReason.emptyStreak ↔ streak ≥ 3)
    ∧ (parsed.status ≠ "done" → ¬ streak ≥ 3 →
        (iterFinish env st parsed s log streak).2 = none) := by
  unfold iterFinish
  by_cases h3 : streak ≥ 3
  · rw [if_pos h3]
    exact ⟨rfl, rfl, rfl, rfl, Iff.intro (fun _ => h3) (fun _ => rfl), fun _ hn => absurd h3 hn⟩
  · rw [if_neg h3]
    cases env.render s.canvas.to_svg with
    | error e =>
      by_cases hdone : parsed.status = "done"
      · rw [if_pos hdone]
        exact ⟨rfl, rfl, rfl, rfl,
          Iff.intro (fun h => nomatch h) (fun h => absurd h h3),
          fun hnd _ => absurd hdone hnd⟩
      · rw [if_neg hdone]
        exact ⟨rfl, rfl, rfl, rfl,
          Iff.intro (fun h => nomatch h) (fun h => absurd h h3), fun _ _ => rfl⟩
    | ok b =>
      by_cases hdone : parsed.status = "done"
      · rw [if_pos hdone]
        exact ⟨rfl, rfl, rfl, rfl,
          Iff.intro (fun h => nomatch h) (fun h => absurd h h3),
          fun hnd _ => absurd hdone hnd⟩
      · rw [if_neg hdone]
        exact ⟨rfl, rfl, rfl, rfl,
          Iff.intro (fun h => nomatch h) (fun h => absurd h h3), fun _ _ => rfl⟩

theorem applyBgRep_frame (parsed : ParsedResponse) (s : DrawingSession) (log : List String) :
    (applyBackgroundAndReplace parsed s log).1.canvas.next_layer = s.canvas.next_layer
    ∧ (applyBackgroundAndReplace parsed s log).1.total_input_tokens = s.total_input_tokens
    ∧ (applyBackgroundAndReplace parsed s log).1.total_output_tokens = s.total_output_tokens
    ∧ (applyBackgroundAndReplace parsed s log).1.total_thinking_tokens
        = s.total_thinking_tokens
    ∧ (applyBackgroundAndReplace parsed s log).1.total_cache_read_tokens
        = s.total_cache_read_tokens
    ∧ (applyBackgroundAndReplace parsed s log).1.total_cache_creation_tokens
        = s.total_cache_creation_tokens
    ∧ (applyBackgroundAndReplace parsed s log).1.iteration = s.iteration
    ∧ (applyBackgroundAndReplace parsed s log).1.max_iterations = s.max_iterations := by
  unfold applyBackgroundAndReplace
  have hb := applyBackground_frame parsed s
  have hr := applyReplace_frame parsed (applyBackground parsed s) log
  exact ⟨hr.1.trans hb.1, hr.2.1.trans hb.2.2.1, hr.2.2.1.trans hb.2.2.2.1,
    hr.2.2.2.1.trans hb.2.2.2.2.1, hr.2.2.2.2.1.trans hb.2.2.2.2.2.1,
    hr.2.2.2.2.2.1.trans hb.2.2.2.2.2.2.1, hr.2.2.2.2.2.2.1.trans hb.2.2.2.2.2.2.2.1,
    hr.2.2.2.2.2.2.2.trans hb.2.2.2.2.2.2.2.2⟩

theorem iterApply_frame (env : Env) (st : LoopState) (response : DrawingResponse) :
    (iterApply env st response).1.responses = st.responses
    ∧ (iterApply env st response).1.calls = st.calls
    ∧ (iterApply env st response).1.sess.total_input_tokens
        = st.sess.total_input_tokens + response.input_tokens
    ∧ (iterApply env st response).1.sess.total_output_tokens
        = st.sess.total_output_tokens + response.output_tokens
    ∧ (iterApply env st response).1.sess.total_thinking_tokens
        = st.sess.total_thinking_tokens + response.thinking_tokens
    ∧ (iterApply env st response).1.sess.total_cache_read_tokens
        = st.sess.total_cache_read_tokens + response.cache_read_tokens
    ∧ (iterApply env st response).1.sess.total_cache_creation_tokens
        = st.sess.total_cache_creation_tokens + response.cache_creation_tokens
    ∧ (iterApply env st response).1.sess.iteration = st.sess.iteration
    ∧ (iterApply env st response).1.sess.max_iterations = st.sess.max_iterations := by
  by_cases hn : (parse_response response.raw_text).notes ≠ ""
  · simp only [iterApply, if_pos hn, iterFinish_spec, applyNewMarkup_frame, applyBgRep_frame,
      addTokens, and_self]
  · simp only [iterApply, if_neg hn, iterFinish_spec, applyNewMarkup_frame, applyBgRep_frame,
      addTokens, and_self]

theorem applyNewMarkup_rollback (env : Env) (parsed : ParsedResponse) (s : DrawingSession)
    (log : List String) (es : Nat) (key : String)
    (hkey : key = "layer-" ++ Nat.repr s.canvas.next_layer)
    (hsvg : parsed.svg_elements ≠ "") :
    ((applyNewMarkup env parsed s log es).2.2 = es + 1 ↔
      dictContains (applyNewMarkup env parsed s log es).1.canvas.layers key = false) := by
  subst hkey
  exact (applyNewMarkup_streak env parsed s log es).2.2.2 hsvg

/-! ## Claim C1 -/

/-- Claim C1: in each drawing iteration (the part of the loop body
following a successful provider call), the consecutive-empty-iteration
counter either increments by one or resets to zero, and it increments
exactly when the parsed response has neither new markup nor a replace
directive, or when the newly added layer was rolled back after a failed
validation render (observably: the freshly allocated layer id is absent
from the resulting canvas); when a replace directive is present without
new markup the counter resets to zero; and the iteration breaks with the
empty-streak stop reason exactly when the updated counter has reached 3. -/
theorem claim_C1 (env : Env) (st : LoopState) (response : DrawingResponse) :
    ((iterApply env st response).1.empty_streak = st.empty_streak + 1
      ∨ (iterApply env st response).1.empty_streak = 0)
    ∧ ((parse_response response.raw_text).svg_elements = "" →
        optTruthy (parse_response response.raw_text).replace_layer_id = false →
        (iterApply env st response).1.empty_streak = st.empty_streak + 1)
    ∧ ((parse_response response.raw_text).svg_elements = "" →
        optTruthy (parse_response response.raw_text).replace_layer_id = true →
        (iterApply env st response).1.empty_streak = 0)
    ∧ ((parse_response response.raw_text).svg_elements ≠ "" →
        ((iterApply env st response).1.empty_streak = st.empty_streak + 1 ↔
          dictContains (iterApply env st response).1.sess.canvas.layers
            ("layer-" ++ Nat.repr st.sess.canvas.next_layer) = false))
    ∧ ((iterApply env st response).2 = some StopReason.emptyStreak ↔
        (iterApply env st response).1.empty_streak ≥ 3) := by
  by_cases hn : (parse_response response.raw_text).notes ≠ ""
  · simp only [iterApply, if_pos hn, iterFinish_spec]
    refine ⟨(applyNewMarkup_streak _ _ _ _ _).1,
      fun h1 h2 => (applyNewMarkup_streak _ _ _ _ _).2.1 h1 h2,
      fun h1 h2 => (applyNewMarkup_streak _ _ _ _ _).2.2.1 h1 h2,
      fun hNew => applyNewMarkup_rollback _ _ _ _ _ _ ?_ hNew, trivial⟩
    rw [(applyBgRep_frame _ _ _).1]
    rfl
  · simp only [iterApply, if_neg hn, iterFinish_spec]
    refine ⟨(applyNewMarkup_streak _ _ _ _ _).1,
      fun h1 h2 => (applyNewMarkup_streak _ _ _ _ _).2.1 h1 h2,
      fun h1 h2 => (applyNewMarkup_streak _ _ _ _ _).2.2.1 h1 h2,
      fun hNew => applyNewMarkup_rollback _ _ _ _ _ _ ?_ hNew, trivial⟩
    rw [(applyBgRep_frame _ _ _).1]
    rfl

/-- Witness for claim C1 at a concrete input: a response carrying only a
replace directive (no new markup) resets the streak counter to zero. -/
theorem claim_C1_witness : (iterApply envW stW respReplaceW).1.empty_streak = 0 :=
  (claim_C1 envW stW respReplaceW).2.2.1 (by decide) (by decide)

/-! ## Claim C2 -/

theorem planningPhase_shape (env : Env) (session : DrawingSession) (system_prompt : String)
    (log : List String) :
    ∃ nh t1 t2 t3 t4 t5,
      (planningPhase env session system_prompt log).1
        = { session with
            notes_history := nh
            total_input_tokens := t1
            total_output_tokens := t2
            total_thinking_tokens := t3
            total_cache_read_tokens := t4
            total_cache_creation_tokens := t5 } := by
  unfold planningPhase
  cases hr : env.render session.canvas.to_svg with
  | error e => exact ⟨_, _, _, _, _, _, rfl⟩
  | ok plan_b64 =>
    dsimp only
    cases hs : env.send 0 (planRequest env session system_prompt plan_b64) with
    | error e => exact ⟨_, _, _, _, _, _, rfl⟩
    | ok plan_response =>
      dsimp only
      by_cases hnotes : (parse_response plan_response.raw_text).notes ≠ ""
      · exact ⟨(addTokens session plan_response).notes_history
            ++ ["[Artistic Plan]\n" ++ (parse_response plan_response.raw_text).notes],
          (addTokens session plan_response).total_input_tokens,
          (addTokens session plan_response).total_output_tokens,
          (addTokens session plan_response).total_thinking_tokens,
          (addTokens session plan_response).total_cache_read_tokens,
          (addTokens session plan_response).total_cache_creation_tokens,
          by simp only [if_pos hnotes]; rfl⟩
      · exact ⟨(addTokens session plan_response).notes_history,
          (addTokens session plan_response).total_input_tokens,
          (addTokens session plan_response).total_output_tokens,
          (addTokens session plan_response).total_thinking_tokens,
          (addTokens session plan_response).total_cache_read_tokens,
          (addTokens session plan_response).total_cache_creation_tokens,
          by simp only [if_neg hnotes]; rfl⟩

/-- Claim C2: the planning phase never mutates the canvas — for every
environment (hence every provider response received during planning) the
session's canvas (width, height, background, layers, defs and the
next-layer counter alike) is the same record before and after the
planning phase, and the prompt, output location, iteration counter and
configuration are also untouched: at most `notes_history` and the
cumulative token counters change.  Markup, defs and background
directives returned during planning are discarded with a logged
warning: when the planning render and provider call succeed, each
directive the parsed planning response carries — svg elements, defs
elements, a background change — puts the corresponding warning line
recording that it is ignored into the session log. -/
theorem claim_C2 (env : Env) (session : DrawingSession) (system_prompt : String)
    (log : List String) :
    (planningPhase env session system_prompt log).1.canvas = session.canvas
    ∧ (planningPhase env session system_prompt log).1.prompt = session.prompt
    ∧ (planningPhase env session system_prompt log).1.output_dir = session.output_dir
    ∧ (planningPhase env session system_prompt log).1.max_iterations = session.max_iterations
    ∧ (planningPhase env session system_prompt log).1.thinking_enabled
        = session.thinking_enabled
    ∧ (planningPhase env session system_prompt log).1.thinking_budget
        = session.thinking_budget
    ∧ (planningPhase env session system_prompt log).1.iteration = session.iteration
    ∧ (∀ b64 response,
        env.render session.canvas.to_svg = Except.ok b64 →
        env.send 0 (planRequest env session system_prompt b64) = Except.ok response →
        (((parse_response response.raw_text).svg_elements ≠ "" →
            "WARNING: Planning phase produced SVG elements — ignoring them."
              ∈ (planningPhase env session system_prompt log).2.1)
          ∧ ((parse_response response.raw_text).defs_elements ≠ "" →
            "WARNING: Planning phase produced defs — ignoring them."
              ∈ (planningPhase env session system_prompt log).2.1)
          ∧ (optTruthy (parse_response response.raw_text).background = true →
            "WARNING: Planning phase changed background — ignoring it."
              ∈ (planningPhase env session system_prompt log).2.1))) := by
  obtain ⟨nh, t1, t2, t3, t4, t5, hshape⟩ := planningPhase_shape env session system_prompt log
  refine ⟨by rw [hshape], by rw [hshape], by rw [hshape], by rw [hshape], by rw [hshape],
    by rw [hshape], by rw [hshape], ?_⟩
  intro b64 response hrender hsend
  unfold planningPhase
  rw [hrender]
  dsimp only
  rw [hsend]
  dsimp only
  by_cases hnotes : (parse_response response.raw_text).notes ≠ ""
  · refine ⟨fun hsvg => by simp [if_pos hnotes, hsvg],
      fun hdefs => by simp [if_pos hnotes, hdefs],
      fun hbg => by simp [if_pos hnotes, hbg]⟩
  · refine ⟨fun hsvg => by simp [if_neg hnotes, hsvg],
      fun hdefs => by simp [if_neg hnotes, hdefs],
      fun hbg => by simp [if_neg hnotes, hbg]⟩

/-- Witness for claim C2 at a concrete input: a planning response that
returns svg elements, defs and a background change leaves the canvas
alone and logs all three warnings. -/
theorem claim_C2_witness :
    (planningPhase envC2W (mkDrawingSession "a cat" {} "out" 3 false 1024) "SYS" []).1.canvas
        = (mkDrawingSession "a cat" {} "out" 3 false 1024).canvas
    ∧ "WARNING: Planning phase produced SVG elements — ignoring them."
        ∈ (planningPhase envC2W (mkDrawingSession "a cat" {} "out" 3 false 1024) "SYS" []).2.1
    ∧ "WARNING: Planning phase produced defs — ignoring them."
        ∈ (planningPhase envC2W (mkDrawingSession "a cat" {} "out" 3 false 1024) "SYS" []).2.1
    ∧ "WARNING: Planning phase changed background — ignoring it."
        ∈ (planningPhase envC2W (mkDrawingSession "a cat" {} "out" 3 false 1024) "SYS" []).2.1 := by
  have h := claim_C2 envC2W (mkDrawingSession "a cat" {} "out" 3 false 1024) "SYS" []
  have hw := h.2.2.2.2.2.2.2 "" respPlanW rfl rfl
  exact ⟨h.1, hw.1 (by decide), hw.2.1 (by decide), hw.2.2 (by decide)⟩

/-! ## Claim C5 -/

theorem iterBody_inv (env : Env) (sp : String) (st : LoopState) (h : TokensInv st) :
    TokensInv (iterBody env sp st).1 := by
  unfold iterBody
  dsimp only
  split
  · exact h
  · split
    · exact h
    · obtain ⟨h1, h2, h3, h4, h5⟩ := h
      refine ⟨?_, ?_, ?_, ?_, ?_⟩
      · rw [(iterApply_frame _ _ _).2.2.1, (iterApply_frame _ _ _).1]
        show st.sess.total_input_tokens + _ = _
        rw [h1]
        simp
      · rw [(iterApply_frame _ _ _).2.2.2.1, (iterApply_frame _ _ _).1]
        show st.sess.total_output_tokens + _ = _
        rw [h2]
        simp
      · rw [(iterApply_frame _ _ _).2.2.2.2.1, (iterApply_frame _ _ _).1]
        show st.sess.total_thinking_tokens + _ = _
        rw [h3]
        simp
      · rw [(iterApply_frame _ _ _).2.2.2.2.2.1, (iterApply_frame _ _ _).1]
        show st.sess.total_cache_read_tokens + _ = _
        rw [h4]
        simp
      · rw [(iterApply_frame _ _ _).2.2.2.2.2.2.1, (iterApply_frame _ _ _).1]
        show st.sess.total_cache_creation_tokens + _ = _
        rw [h5]
        simp

theorem runLoop_inv (env : Env) (sp : String) (maxIt : Nat) :
    ∀ (fuel : Nat) (st : LoopState), TokensInv st →
      TokensInv (runLoop env sp maxIt fuel st).1 := by
  intro fuel
  induction fuel with
  | zero => exact fun st h => h
  | succ n ih =>
    intro st h
    unfold runLoop
    by_cases hlt : st.sess.iteration < maxIt
    · rw [if_pos hlt]
      cases hb : iterBody env sp st with
      | mk st2 o =>
        have h2 : TokensInv st2 := by
          have hib := iterBody_inv env sp st h
          rw [hb] at hib
          exact hib
        cases o with
        | some r => exact h2
        | none => exact ih st2 h2
    · rw [if_neg hlt]
      exact h

theorem planningPhase_tokens (env : Env) (session : DrawingSession) (sp : String)
    (log : List String)
    (h1 : session.total_input_tokens = 0) (h2 : session.total_output_tokens = 0)
    (h3 : session.total_thinking_tokens = 0) (h4 : session.total_cache_read_tokens = 0)
    (h5 : session.total_cache_creation_tokens = 0) :
    TokensInv
      { sess := (planningPhase env session sp log).1
        log := (planningPhase env session sp log).2.1
        empty_streak := 0
        calls := (planningPhase env session sp log).2.2.2
        responses := (planningPhase env session sp log).2.2.1 } := by
  unfold planningPhase
  cases hr : env.render session.canvas.to_svg with
  | error e => exact ⟨h1, h2, h3, h4, h5⟩
  | ok plan_b64 =>
    dsimp only
    cases hs : env.send 0 (planRequest env session sp plan_b64) with
    | error e => exact ⟨h1, h2, h3, h4, h5⟩
    | ok plan_response =>
      dsimp only
      by_cases hnotes : (parse_response plan_response.raw_text).notes ≠ ""
      · simp only [if_pos hnotes]
        exact ⟨by simp [addTokens, h1], by simp [addTokens, h2], by simp [addTokens, h3],
          by simp [addTokens, h4], by simp [addTokens, h5]⟩
      · simp only [if_neg hnotes]
        exact ⟨by simp [addTokens, h1], by simp [addTokens, h2], by simp [addTokens, h3],
          by simp [addTokens, h4], by simp [addTokens, h5]⟩

/-- Claim C5: after a full session, each of the five cumulative token
counters (input, output, thinking, cache-read, cache-creation) equals
the exact sum of the corresponding per-turn counters over the trace of
provider responses received (planning plus iterations), and every turn's
accounting step only adds the turn's counters onto the totals — each
total is monotonically non-decreasing, never reset. -/
theorem claim_C5 (env : Env) (prompt : String) (canvas : SvgCanvas) (output_dir : String)
    (max_iterations : Nat) (thinking_enabled : Bool) (thinking_budget : Nat) :
    ((run_drawing_session env (mkDrawingSession prompt canvas output_dir max_iterations
          thinking_enabled thinking_budget)).session.total_input_tokens
        = (((run_drawing_session env (mkDrawingSession prompt canvas output_dir max_iterations
            thinking_enabled thinking_budget)).responses).map (fun r => r.input_tokens)).sum
      ∧ (run_drawing_session env (mkDrawingSession prompt canvas output_dir max_iterations
          thinking_enabled thinking_budget)).session.total_output_tokens
        = (((run_drawing_session env (mkDrawingSession prompt canvas output_dir max_iterations
            thinking_enabled thinking_budget)).responses).map (fun r => r.output_tokens)).sum
      ∧ (run_drawing_session env (mkDrawingSession prompt canvas output_dir max_iterations
          thinking_enabled thinking_budget)).session.total_thinking_tokens
        = (((run_drawing_session env (mkDrawingSession prompt canvas output_dir max_iterations
            thinking_enabled thinking_budget)).responses).map (fun r => r.thinking_tokens)).sum
      ∧ (run_drawing_session env (mkDrawingSession prompt canvas output_dir max_iterations
          thinking_enabled thinking_budget)).session.total_cache_read_tokens
        = (((run_drawing_session env (mkDrawingSession prompt canvas output_dir max_iterations
            thinking_enabled thinking_budget)).responses).map (fun r => r.cache_read_tokens)).sum
      ∧ (run_drawing_session env (mkDrawingSession prompt canvas output_dir max_iterations
          thinking_enabled thinking_budget)).session.total_cache_creation_tokens
        = (((run_drawing_session env (mkDrawingSession prompt canvas output_dir max_iterations
            thinking_enabled thinking_budget)).responses).map
              (fun r => r.cache_creation_tokens)).sum)
    ∧ (∀ (st : LoopState) (r : DrawingResponse),
        st.sess.total_input_tokens ≤ (iterApply env st r).1.sess.total_input_tokens
        ∧ st.sess.total_output_tokens ≤ (iterApply env st r).1.sess.total_output_tokens
        ∧ st.sess.total_thinking_tokens ≤ (iterApply env st r).1.sess.total_thinking_tokens
        ∧ st.sess.total_cache_read_tokens
            ≤ (iterApply env st r).1.sess.total_cache_read_tokens
        ∧ st.sess.total_cache_creation_tokens
            ≤ (iterApply env st r).1.sess.total_cache_creation_tokens) := by
  constructor
  · have hinv := runLoop_inv env
      (env.buildSystemPrompt canvas.width canvas.height max_iterations)
      max_iterations max_iterations
      { sess := (planningPhase env (mkDrawingSession prompt canvas output_dir max_iterations
          thinking_enabled thinking_budget)
          (env.buildSystemPrompt canvas.width canvas.height max_iterations) (logSessionStart
            env.providerName env.defaultModel (mkDrawingSession prompt canvas output_dir
              max_iterations thinking_enabled thinking_budget))).1
        log := (planningPhase env (mkDrawingSession prompt canvas output_dir max_iterations
          thinking_enabled thinking_budget)
          (env.buildSystemPrompt canvas.width canvas.height max_iterations) (logSessionStart
            env.providerName env.defaultModel (mkDrawingSession prompt canvas output_dir
              max_iterations thinking_enabled thinking_budget))).2.1
        empty_streak := 0
        calls := (planningPhase env (mkDrawingSession prompt canvas output_dir max_iterations
          thinking_enabled thinking_budget)
          (env.buildSystemPrompt canvas.width canvas.height max_iterations) (logSessionStart
            env.providerName env.defaultModel (mkDrawingSession prompt canvas output_dir
              max_iterations thinking_enabled thinking_budget))).2.2.2
        responses := (planningPhase env (mkDrawingSession prompt canvas output_dir
          max_iterations thinking_enabled thinking_budget)
          (env.buildSystemPrompt canvas.width canvas.height max_iterations) (logSessionStart
            env.providerName env.defaultModel (mkDrawingSession prompt canvas output_dir
              max_iterations thinking_enabled thinking_budget))).2.2.1 }
      (planningPhase_tokens env (mkDrawingSession prompt canvas output_dir max_iterations
          thinking_enabled thinking_budget)
        (env.buildSystemPrompt canvas.width canvas.height max_iterations)
        (logSessionStart env.providerName env.defaultModel (mkDrawingSession prompt canvas
          output_dir max_iterations thinking_enabled thinking_budget)) rfl rfl rfl rfl rfl)
    exact hinv
  · intro st r
    refine ⟨?_, ?_, ?_, ?_, ?_⟩
    · rw [(iterApply_frame _ _ _).2.2.1]
      exact Nat.le_add_right _ _
    · rw [(iterApply_frame _ _ _).2.2.2.1]
      exact Nat.le_add_right _ _
    · rw [(iterApply_frame _ _ _).2.2.2.2.1]
      exact Nat.le_add_right _ _
    · rw [(iterApply_frame _ _ _).2.2.2.2.2.1]
      exact Nat.le_add_right _ _
    · rw [(iterApply_frame _ _ _).2.2.2.2.2.2.1]
      exact Nat.le_add_right _ _

/-! ## Claim C9 -/

theorem iterFinish_cont (env : Env) (st : LoopState) (parsed : ParsedResponse)
    (s : DrawingSession) (log : List String) (streak : Nat)
    (hdone : parsed.status ≠ "done") :
    (iterFinish env st parsed s log streak).2 = none
    ∨ ((iterFinish env st parsed s log streak).2 = some StopReason.emptyStreak
        ∧ streak ≥ 3) := by
  by_cases h3 : streak ≥ 3
  · exact Or.inr ⟨(iterFinish_spec env st parsed s log streak).2.2.2.2.1.mpr h3, h3⟩
  · exact Or.inl ((iterFinish_spec env st parsed s log streak).2.2.2.2.2 hdone h3)

theorem iterApply_streak (env : Env) (st : LoopState) (r0 : DrawingResponse) :
    ((iterApply env st r0).1.empty_streak = st.empty_streak + 1
      ∨ (iterApply env st r0).1.empty_streak = 0)
    ∧ ((parse_response r0.raw_text).status ≠ "done" →
        ((iterApply env st r0).2 = none
          ∨ ((iterApply env st r0).2 = some StopReason.emptyStreak
              ∧ (iterApply env st r0).1.empty_streak ≥ 3))) := by
  by_cases hn : (parse_response r0.raw_text).notes ≠ ""
  · simp only [iterApply, if_pos hn]
    constructor
    · rw [(iterFinish_spec _ _ _ _ _ _).2.1]
      exact (applyNewMarkup_streak _ _ _ _ _).1
    · intro hdone
      rw [(iterFinish_spec _ _ _ _ _ _).2.1]
      exact iterFinish_cont _ _ _ _ _ _ hdone
  · simp only [iterApply, if_neg hn]
    constructor
    · rw [(iterFinish_spec _ _ _ _ _ _).2.1]
      exact (applyNewMarkup_streak _ _ _ _ _).1
    · intro hdone
      rw [(iterFinish_spec _ _ _ _ _ _).2.1]
      exact iterFinish_cont _ _ _ _ _ _ hdone

theorem iterBody_iter (env : Env) (sp : String) (st : LoopState) :
    (iterBody env sp st).1.sess.iteration = st.sess.iteration + 1 := by
  unfold iterBody
  dsimp only
  split
  · rfl
  · split
    · rfl
    · exact ((iterApply_frame _ _ _).2.2.2.2.2.2.2.1).trans rfl

theorem iterBody_step (env : Env) (sp : String) (st : LoopState)
    (hrender : ∀ svg, ∃ b, env.render svg = Except.ok b)
    (hsend : ∀ n req, ∃ r, env.send n req = Except.ok r
        ∧ (parse_response r.raw_text).status ≠ "done") :
    ((iterBody env sp st).1.empty_streak = st.empty_streak + 1
      ∨ (iterBody env sp st).1.empty_streak = 0)
    ∧ ((iterBody env sp st).2 = none
      ∨ ((iterBody env sp st).2 = some StopReason.emptyStreak
          ∧ (iterBody env sp st).1.empty_streak ≥ 3)) := by
  obtain ⟨b, hb⟩ := hrender st.sess.canvas.to_svg
  obtain ⟨r, hr, hdone⟩ := hsend st.calls
    (iterRequest env { st.sess with iteration := st.sess.iteration + 1 } sp b)
  unfold iterBody
  dsimp only
  rw [hb]
  dsimp only
  rw [hr]
  dsimp only
  refine ⟨?_, ?_⟩
  · exact (iterApply_streak env _ r).1
  · exact (iterApply_streak env _ r).2 hdone

theorem runLoop_le (env : Env) (sp : String) (m : Nat) :
    ∀ (fuel : Nat) (st : LoopState), st.sess.iteration ≤ m →
      (runLoop env sp m fuel st).1.sess.iteration ≤ m := by
  intro fuel
  induction fuel with
  | zero => exact fun st h => h
  | succ n ih =>
    intro st h
    unfold runLoop
    by_cases hlt : st.sess.iteration < m
    · rw [if_pos hlt]
      have hib := iterBody_iter env sp st
      cases hb : iterBody env sp st with
      | mk st2 o =>
        rw [hb] at hib
        dsimp only at hib
        cases o with
        | some r =>
          dsimp only
          omega
        | none =>
          dsimp only
          exact ih st2 (by omega)
    · rw [if_neg hlt]
      exact h

theorem runLoop_iter3 (env : Env) (sp : String)
    (hrender : ∀ svg, ∃ b, env.render svg = Except.ok b)
    (hsend : ∀ n req, ∃ r, env.send n req = Except.ok r
        ∧ (parse_response r.raw_text).status ≠ "done") :
    ∀ (fuel : Nat) (st : LoopState),
      st.sess.iteration + fuel = 3 →
      st.empty_streak ≤ st.sess.iteration →
      (runLoop env sp 3 fuel st).1.sess.iteration = 3 := by
  intro fuel
  induction fuel with
  | zero =>
    intro st h1 _
    show st.sess.iteration = 3
    omega
  | succ n ih =>
    intro st h1 h2
    have hiter := iterBody_iter env sp st
    have hstep := iterBody_step env sp st hrender hsend
    unfold runLoop
    rw [if_pos (show st.sess.iteration < 3 by omega)]
    cases hb : iterBody env sp st with
    | mk st2 o =>
      rw [hb] at hiter hstep
      dsimp only at hiter hstep
      obtain ⟨hstreak, hstop⟩ := hstep
      cases o with
      | some r =>
        dsimp only
        rcases hstop with hnone | ⟨_, hge⟩
        · exact Option.noConfusion hnone
        · rcases hstreak with he | he <;> omega
      | none =>
        dsimp only
        refine ih st2 (by omega) ?_
        rcases hstreak with he | he <;> omega

theorem planningPhase_iteration (env : Env) (session : DrawingSession) (sp : String)
    (log : List String) :
    (planningPhase env session sp log).1.iteration = session.iteration := by
  obtain ⟨nh, t1, t2, t3, t4, t5, heq⟩ := planningPhase_shape env session sp log
  rw [heq]

/-- Claim C9: the iteration loop runs at most `max_iterations` iterations
(the final iteration counter of a session started from a fresh
`DrawingSession` never exceeds `max_iterations`, for every environment);
and with `max_iterations = 3`, every render and provider call succeeding
and every turn parsed as status `continue`, the session stops with its
iteration counter exactly 3, regardless of the content of the turns. -/
theorem claim_C9 (env : Env) (prompt : String) (canvas : SvgCanvas) (output_dir : String)
    (thinking_enabled : Bool) (thinking_budget : Nat)
    (hrender : ∀ svg, ∃ b, env.render svg = Except.ok b)
    (hcontinue : ∀ n req, ∃ r, env.send n req = Except.ok r
        ∧ (parse_response r.raw_text).status = "continue") :
    (∀ (env2 : Env) (m : Nat),
        (run_drawing_session env2 (mkDrawingSession prompt canvas output_dir m
            thinking_enabled thinking_budget)).session.iteration ≤ m)
    ∧ (run_drawing_session env (mkDrawingSession prompt canvas output_dir 3
        thinking_enabled thinking_budget)).session.iteration = 3 := by
  constructor
  · intro env2 m
    unfold run_drawing_session
    dsimp only
    refine runLoop_le env2 _ _ _ _ ?_
    dsimp only
    rw [planningPhase_iteration]
    exact Nat.zero_le _
  · have hsend : ∀ (n : Nat) (req : DrawingRequest), ∃ r, env.send n req = Except.ok r
        ∧ (parse_response r.raw_text).status ≠ "done" := by
      intro n req
      obtain ⟨r, h1, h2⟩ := hcontinue n req
      refine ⟨r, h1, ?_⟩
      rw [h2]
      decide
    unfold run_drawing_session
    dsimp only
    refine runLoop_iter3 env _ hrender hsend _ _ ?_ ?_
    · dsimp only
      rw [planningPhase_iteration]
      rfl
    · dsimp only
      exact Nat.zero_le _

/-- Witness for claim C9 at a concrete input: with the always-succeeding
environment whose provider returns an empty response (parsed as status
`continue`) on every call, a session with `max_iterations = 3` ends with
its iteration counter exactly 3. -/
theorem claim_C9_witness :
    (run_drawing_session envW
        (mkDrawingSession "a cat" {} "out" 3 false 1024)).session.iteration = 3 := by
  have h := claim_C9 envW "a cat" {} "out" false 1024
    (fun svg => ⟨"", rfl⟩)
    (fun n req => ⟨{ raw_text := "" }, rfl, by decide⟩)
  exact h.2

end Monet
